import Mathlib

/-!
Shallow embedding of the balance-ledger logic of the personal-finance
backend (src/routes/transacciones.ts, src/routes/cuentas.ts, src/db/schema.ts).

Modelling conventions:
* SQL tables become Lean lists of rows; `WHERE` clauses become `List.find?`
  / `List.filter` with the same predicates the drizzle queries use.
* Decimal amounts (`real` columns) are modelled as `ℚ`.
* Display-only columns (color, icono, account type string) and the
  `created_at` / `updated_at` timestamp columns are omitted: no ledger
  decision in the handlers reads them.
* A handler returns the post state together with the response envelope
  (`Resp.ok` for the success envelope, `Resp.err code status` for
  `makeError(code, …), status`).  `db.transaction` blocks that can throw
  are modelled as `Option State` (`none` = exception = full rollback).
-/

namespace Finanzas

/-- Transaction / category kind: `'ingreso' | 'gasto'`. -/
inductive Tipo where
  | ingreso
  | gasto
deriving DecidableEq

/-- A row of the `categorias` table (ledger-relevant columns). -/
structure Categoria where
  id : String
  cuentaMaestraId : String
  nombre : String
  tipo : Tipo
  activa : Bool
deriving DecidableEq

/-- A row of the `cuentas` table (ledger-relevant columns). -/
structure Cuenta where
  id : String
  cuentaMaestraId : String
  nombre : String
  saldo : ℚ
  activa : Bool
deriving DecidableEq

/-- A row of the `transacciones` table (ledger-relevant columns). -/
structure Transaccion where
  id : String
  cuentaMaestraId : String
  usuarioId : String
  tipo : Tipo
  monto : ℚ
  categoriaId : String
  cuentaId : String
  fecha : String
  notas : Option String
  fotoComprobanteUrl : Option String
deriving DecidableEq

/-- The persistent store: the three tables the ledger logic touches. -/
structure State where
  categorias : List Categoria
  cuentas : List Cuenta
  transacciones : List Transaccion
deriving DecidableEq

/-- Error codes used by the transaction/account handlers. -/
inductive Codigo where
  | ERR_VALIDATION
  | ERR_NOT_FOUND
  | ERR_CONFLICT
  | ERR_INTERNAL
deriving DecidableEq

/-- Handler response: success envelope or `makeError(code), status`. -/
inductive Resp where
  | ok
  | err (code : Codigo) (status : Nat)
deriving DecidableEq

/-- Body of `POST /transacciones` (`createTransaccionSchema`). -/
structure CreateTransaccionReq where
  tipo : Tipo
  monto : ℚ
  categoria_id : String
  cuenta_id : String
  fecha : String
  notas : Option String
  foto_comprobante_url : Option String
deriving DecidableEq

/-- Body of `PATCH /transacciones/:id` (`updateTransaccionSchema`);
`none` = field not supplied. -/
structure UpdateTransaccionReq where
  tipo : Option Tipo
  monto : Option ℚ
  categoria_id : Option String
  cuenta_id : Option String
  fecha : Option String
  notas : Option String
  foto_comprobante_url : Option String
deriving DecidableEq

/-- zod `createTransaccionSchema`: positive amount, non-empty ids and date. -/
def createSchemaOk (r : CreateTransaccionReq) : Bool :=
  decide (0 < r.monto) && decide (¬ r.categoria_id = "") &&
    decide (¬ r.cuenta_id = "") && decide (¬ r.fecha = "")

/-- zod `updateTransaccionSchema`: the same checks on each supplied field. -/
def updateSchemaOk (r : UpdateTransaccionReq) : Bool :=
  (match r.monto with
   | some m => decide (0 < m)
   | none => true) &&
  (match r.categoria_id with
   | some c => decide (¬ c = "")
   | none => true) &&
  (match r.cuenta_id with
   | some c => decide (¬ c = "")
   | none => true) &&
  (match r.fecha with
   | some f => decide (¬ f = "")
   | none => true)

/-- `WHERE categorias.id = ? AND cuenta_maestra_id = ? AND activa = true LIMIT 1`. -/
def findCategoriaActiva (s : State) (cid tenant : String) : Option Categoria :=
  s.categorias.find? fun c =>
    decide (c.id = cid ∧ c.cuentaMaestraId = tenant ∧ c.activa = true)

/-- `WHERE cuentas.id = ? AND cuenta_maestra_id = ? AND activa = true LIMIT 1`. -/
def findCuentaActiva (s : State) (cid tenant : String) : Option Cuenta :=
  s.cuentas.find? fun c =>
    decide (c.id = cid ∧ c.cuentaMaestraId = tenant ∧ c.activa = true)

/-- `WHERE cuentas.id = ? LIMIT 1` (the lookups inside `db.transaction`,
which do not filter by tenant or active flag). -/
def findCuentaById (l : List Cuenta) (cid : String) : Option Cuenta :=
  l.find? fun c => decide (c.id = cid)

/-- `WHERE transacciones.id = ? AND cuenta_maestra_id = ? LIMIT 1`. -/
def findTransaccion (s : State) (tid tenant : String) : Option Transaccion :=
  s.transacciones.find? fun t => decide (t.id = tid ∧ t.cuentaMaestraId = tenant)

/-- `UPDATE cuentas SET saldo = ? WHERE id = ?`. -/
def setSaldo (l : List Cuenta) (cid : String) (v : ℚ) : List Cuenta :=
  l.map fun c => if c.id = cid then { c with saldo := v } else c

/-- The transaction row inserted by `POST /transacciones`. -/
def mkNewTransaccion (tenant usuarioId freshId : String)
    (r : CreateTransaccionReq) : Transaccion :=
  { id := freshId
    cuentaMaestraId := tenant
    usuarioId := usuarioId
    tipo := r.tipo
    monto := r.monto
    categoriaId := r.categoria_id
    cuentaId := r.cuenta_id
    fecha := r.fecha
    notas := r.notas
    fotoComprobanteUrl := r.foto_comprobante_url }

/-- `POST /transacciones`: validate, check category (active, kind match),
check account (active, sufficient balance for expenses), then atomically
insert the row and apply the signed delta to the account balance. -/
def createTransaccion (s : State) (tenant usuarioId freshId : String)
    (r : CreateTransaccionReq) : State × Resp :=
  if ¬ createSchemaOk r = true then (s, Resp.err Codigo.ERR_VALIDATION 400)
  else
    match findCategoriaActiva s r.categoria_id tenant with
    | none => (s, Resp.err Codigo.ERR_NOT_FOUND 404)
    | some categoria =>
      if ¬ categoria.tipo = r.tipo then (s, Resp.err Codigo.ERR_VALIDATION 400)
      else
        match findCuentaActiva s r.cuenta_id tenant with
        | none => (s, Resp.err Codigo.ERR_NOT_FOUND 404)
        | some cuenta =>
          if r.tipo = Tipo.gasto ∧ cuenta.saldo < r.monto then
            (s, Resp.err Codigo.ERR_VALIDATION 400)
          else
            let nuevoSaldo :=
              if r.tipo = Tipo.ingreso then cuenta.saldo + r.monto
              else cuenta.saldo - r.monto
            ({ s with
                transacciones :=
                  s.transacciones ++ [mkNewTransaccion tenant usuarioId freshId r]
                cuentas := setSaldo s.cuentas r.cuenta_id nuevoSaldo },
              Resp.ok)

/-- Spread of `...validatedData` into `UPDATE transacciones SET …`.
drizzle's `.set` matches the spread keys against the camelCase TS column
properties of the schema (`tipo`, `monto`, `categoriaId`, `cuentaId`,
`fecha`, `notas`, `fotoComprobanteUrl`) and ignores unknown keys (it also
skips `undefined` values).  Of the snake_case request fields only `tipo`,
`monto`, `fecha` and `notas` — whose names coincide with the column
properties — are therefore persisted; `categoria_id`, `cuenta_id` and
`foto_comprobante_url` never reach the row. -/
def applyUpdate (r : UpdateTransaccionReq) (t : Transaccion) : Transaccion :=
  { t with
    tipo := r.tipo.getD t.tipo
    monto := r.monto.getD t.monto
    fecha := r.fecha.getD t.fecha
    notas := match r.notas with
      | some n => some n
      | none => t.notas }

/-- `UPDATE transacciones SET {...validatedData} WHERE id = ?`. -/
def updateRow (s : State) (tid : String) (r : UpdateTransaccionReq) : State :=
  { s with
    transacciones :=
      s.transacciones.map fun t => if t.id = tid then applyUpdate r t else t }

/-- First half of the PATCH atomic unit: revert the old signed delta on the
old account, if that account row still exists. -/
def revertOldState (s : State) (oldT : Transaccion) : State :=
  match findCuentaById s.cuentas oldT.cuentaId with
  | none => s
  | some cA =>
    let saldoRevertido :=
      if oldT.tipo = Tipo.ingreso then cA.saldo - oldT.monto
      else cA.saldo + oldT.monto
    { s with cuentas := setSaldo s.cuentas oldT.cuentaId saldoRevertido }

/-- Second half of the PATCH atomic unit, run on the already-reverted state
`s1`: look up the (possibly different) target account, compute the new
balance (`nuevoSaldo` in the source, written out at each use here), throw
(`none`) if an expense would drive it negative, else apply it and update
the transaction row. -/
def patchApplyNew (s1 : State) (oldT : Transaccion) (tid : String)
    (r : UpdateTransaccionReq) : Option State :=
  match findCuentaById s1.cuentas (r.cuenta_id.getD oldT.cuentaId) with
  | none => some (updateRow s1 tid r)
  | some cN =>
    if (r.tipo.getD oldT.tipo) = Tipo.gasto ∧
        (if (r.tipo.getD oldT.tipo) = Tipo.ingreso then
          cN.saldo + r.monto.getD oldT.monto
         else cN.saldo - r.monto.getD oldT.monto) < 0 then none
    else
      some (updateRow
        { s1 with
          cuentas := setSaldo s1.cuentas (r.cuenta_id.getD oldT.cuentaId)
            (if (r.tipo.getD oldT.tipo) = Tipo.ingreso then
              cN.saldo + r.monto.getD oldT.monto
             else cN.saldo - r.monto.getD oldT.monto) }
        tid r)

/-- The `db.transaction` block of `PATCH /transacciones/:id`.
`none` models the thrown `'Saldo insuficiente en la cuenta'` error,
which rolls back every write of the block.  The balance-adjustment path
runs only when amount, kind or account is supplied. -/
def patchAtomic (s : State) (oldT : Transaccion) (tid : String)
    (r : UpdateTransaccionReq) : Option State :=
  if r.monto.isSome || r.tipo.isSome || r.cuenta_id.isSome then
    patchApplyNew (revertOldState s oldT) oldT tid r
  else some (updateRow s tid r)

/-- PATCH pre-check on the category: only performed when `categoria_id`
is supplied, and the kind compared is the effective new kind. -/
def patchPrecheckCategoria (s : State) (tenant : String) (oldT : Transaccion)
    (r : UpdateTransaccionReq) : Option (Codigo × Nat) :=
  match r.categoria_id with
  | none => none
  | some cid =>
    match findCategoriaActiva s cid tenant with
    | none => some (Codigo.ERR_NOT_FOUND, 404)
    | some categoria =>
      if ¬ categoria.tipo = r.tipo.getD oldT.tipo then
        some (Codigo.ERR_VALIDATION, 400)
      else none

/-- PATCH pre-check on the account: only performed when `cuenta_id`
is supplied. -/
def patchPrecheckCuenta (s : State) (tenant : String)
    (r : UpdateTransaccionReq) : Option (Codigo × Nat) :=
  match r.cuenta_id with
  | none => none
  | some acid =>
    match findCuentaActiva s acid tenant with
    | none => some (Codigo.ERR_NOT_FOUND, 404)
    | some _ => none

/-- Both PATCH pre-checks, in source order. -/
def patchPrechecks (s : State) (tenant : String) (oldT : Transaccion)
    (r : UpdateTransaccionReq) : Option (Codigo × Nat) :=
  match patchPrecheckCategoria s tenant oldT r with
  | some e => some e
  | none => patchPrecheckCuenta s tenant r

/-- `PATCH /transacciones/:id`. -/
def patchTransaccion (s : State) (tenant tid : String)
    (r : UpdateTransaccionReq) : State × Resp :=
  if ¬ updateSchemaOk r = true then (s, Resp.err Codigo.ERR_VALIDATION 400)
  else
    match findTransaccion s tid tenant with
    | none => (s, Resp.err Codigo.ERR_NOT_FOUND 404)
    | some oldT =>
      match patchPrechecks s tenant oldT r with
      | some e => (s, Resp.err e.1 e.2)
      | none =>
        match patchAtomic s oldT tid r with
        | none => (s, Resp.err Codigo.ERR_VALIDATION 400)
        | some s1 => (s1, Resp.ok)

/-- `DELETE /transacciones/:id`: revert the signed contribution on the
transaction's account (if that account row still exists), then delete the
row, atomically.  No balance-floor check. -/
def deleteTransaccion (s : State) (tenant tid : String) : State × Resp :=
  match findTransaccion s tid tenant with
  | none => (s, Resp.err Codigo.ERR_NOT_FOUND 404)
  | some t =>
    let s1 := revertOldState s t
    ({ s1 with
        transacciones := s1.transacciones.filter fun x => decide (¬ x.id = tid) },
      Resp.ok)

/-- Body of `POST /cuentas` (`createCuentaSchema`; `saldo` defaults to 0
and must be non-negative). -/
structure CreateCuentaReq where
  nombre : String
  saldo : ℚ
deriving DecidableEq

/-- `POST /cuentas`: reject duplicate names in the tenant, else insert the
account with the requested initial balance and `activa = true`. -/
def createCuenta (s : State) (tenant freshId : String)
    (r : CreateCuentaReq) : State × Resp :=
  if ¬ (decide (¬ r.nombre = "") && decide (0 ≤ r.saldo)) = true then
    (s, Resp.err Codigo.ERR_VALIDATION 400)
  else if (s.cuentas.find? fun c =>
      decide (c.nombre = r.nombre ∧ c.cuentaMaestraId = tenant)).isSome then
    (s, Resp.err Codigo.ERR_CONFLICT 409)
  else
    ({ s with
        cuentas := s.cuentas ++
          [{ id := freshId
             cuentaMaestraId := tenant
             nombre := r.nombre
             saldo := r.saldo
             activa := true }] },
      Resp.ok)

/-- Signed value of an amount under a kind: `+amount` for income,
`-amount` for expense. -/
def signedOf : Tipo → ℚ → ℚ
  | Tipo.ingreso, m => m
  | Tipo.gasto, m => -m

/-- Signed contribution of a transaction to its account's balance. -/
def signedContribution (t : Transaccion) : ℚ :=
  signedOf t.tipo t.monto

/-- Contribution of one transaction row to the balance of account `cid`. -/
def contribTo (cid : String) (t : Transaccion) : ℚ :=
  if t.cuentaId = cid then signedContribution t else 0

/-- Sum of signed contributions to account `cid` over a row list. -/
def sumC (l : List Transaccion) (cid : String) : ℚ :=
  (l.map (contribTo cid)).sum

/-- Sum of signed contributions of the persisted transactions of account
`cid`. -/
def sumContribs (s : State) (cid : String) : ℚ :=
  sumC s.transacciones cid

/-- The literal invariant of the claim: every stored account balance equals
the sum of the signed contributions currently persisted for it. -/
def BalanceLiteralInv (s : State) : Prop :=
  ∀ c ∈ s.cuentas, c.saldo = sumContribs s c.id

/-- The invariant the code actually maintains: every stored account balance
equals a fixed per-account offset (the balance the account had when the
observation started, e.g. its creation-time initial balance) plus the sum
of the signed contributions currently persisted for it. -/
def BalanceInv (base : String → ℚ) (s : State) : Prop :=
  ∀ c ∈ s.cuentas, c.saldo = base c.id + sumContribs s c.id

/-- Primary-key well-formedness: transaction row ids are pairwise distinct. -/
def WFids (s : State) : Prop :=
  (s.transacciones.map fun t => t.id).Nodup

/-- One ledger operation: create, update or delete of a transaction. -/
inductive LedgerOp where
  | create (tenant usuarioId freshId : String) (r : CreateTransaccionReq)
  | update (tenant tid : String) (r : UpdateTransaccionReq)
  | delete (tenant tid : String)

/-- The state reached by one ledger operation. -/
def applyOp (s : State) : LedgerOp → State
  | LedgerOp.create tenant usuarioId freshId r =>
    (createTransaccion s tenant usuarioId freshId r).1
  | LedgerOp.update tenant tid r => (patchTransaccion s tenant tid r).1
  | LedgerOp.delete tenant tid => (deleteTransaccion s tenant tid).1

/-- The state reached by a sequence of ledger operations. -/
def runOps (s : State) : List LedgerOp → State
  | [] => s
  | op :: rest => runOps (applyOp s op) rest

/-- `nanoid()` freshness of one operation: a create supplies an id not
already present among the transaction rows. -/
def opFreshOk (s : State) : LedgerOp → Bool
  | LedgerOp.create _ _ freshId _ =>
    decide (¬ freshId ∈ s.transacciones.map fun t => t.id)
  | _ => true

/-- `nanoid()` freshness along a whole sequence of operations. -/
def opsFresh (s : State) : List LedgerOp → Bool
  | [] => true
  | op :: rest => opFreshOk s op && opsFresh (applyOp s op) rest

/-- An operation that cannot move a transaction between accounts: any
create or delete, or an update that does not supply `cuenta_id`.  (A PATCH
that supplies `cuenta_id` adjusts both balances for the move but — drizzle
ignoring the snake_case key — leaves the row on the old account, so such
updates break the balance/contribution correspondence.) -/
def opNoMove : LedgerOp → Bool
  | LedgerOp.update _ _ r => r.cuenta_id.isNone
  | _ => true

/-- Kind/category consistency: every persisted transaction's kind matches
the kind of every category row it references. -/
def KindMatchInv (s : State) : Prop :=
  ∀ t ∈ s.transacciones, ∀ cat ∈ s.categorias,
    cat.id = t.categoriaId → cat.tipo = t.tipo

/-! ### Arithmetic bridges between the source's conditionals and `signedOf` -/

lemma ite_apply_eq (tp : Tipo) (x m : ℚ) :
    (if tp = Tipo.ingreso then x + m else x - m) = x + signedOf tp m := by
  cases tp
  · simp [signedOf]
  · simp [signedOf, sub_eq_add_neg]

lemma ite_revert_eq (tp : Tipo) (x m : ℚ) :
    (if tp = Tipo.ingreso then x - m else x + m) = x - signedOf tp m := by
  cases tp
  · simp [signedOf]
  · simp [signedOf, sub_eq_add_neg]

lemma contribTo_eq_signed {t : Transaccion} {cid : String} (h : t.cuentaId = cid) :
    contribTo cid t = signedOf t.tipo t.monto := by
  simp [contribTo, h, signedContribution]

lemma contribTo_eq_zero {t : Transaccion} {cid : String} (h : ¬ t.cuentaId = cid) :
    contribTo cid t = 0 := by
  simp [contribTo, h]

/-! ### Sum-of-contribution lemmas -/

lemma sumC_cons (t : Transaccion) (l : List Transaccion) (cid : String) :
    sumC (t :: l) cid = contribTo cid t + sumC l cid := by
  simp [sumC]

lemma sumC_append (l₁ l₂ : List Transaccion) (cid : String) :
    sumC (l₁ ++ l₂) cid = sumC l₁ cid + sumC l₂ cid := by
  simp [sumC]

lemma sumC_singleton (t : Transaccion) (cid : String) :
    sumC [t] cid = contribTo cid t := by
  simp [sumC]

lemma mapRow_eq_self {l : List Transaccion} {tid : String}
    {g : Transaccion → Transaccion} (h : ∀ t ∈ l, ¬ t.id = tid) :
    (l.map fun t => if t.id = tid then g t else t) = l := by
  induction l with
  | nil => rfl
  | cons a l ih =>
    rw [List.map_cons, if_neg (h a (List.mem_cons_self a l)),
      ih fun t ht => h t (List.mem_cons_of_mem a ht)]

lemma filterNe_eq_self {l : List Transaccion} {tid : String}
    (h : ∀ t ∈ l, ¬ t.id = tid) :
    (l.filter fun x => decide (¬ x.id = tid)) = l := by
  apply List.filter_eq_self.mpr
  intro a ha
  exact decide_eq_true (h a ha)

lemma sumC_mapRow {l : List Transaccion} {tid : String} {t0 : Transaccion}
    (hnd : (l.map fun t => t.id).Nodup) (ht0 : t0 ∈ l) (hid : t0.id = tid)
    (g : Transaccion → Transaccion) (cid : String) :
    sumC (l.map fun t => if t.id = tid then g t else t) cid
      = sumC l cid - contribTo cid t0 + contribTo cid (g t0) := by
  induction l with
  | nil => cases ht0
  | cons a l ih =>
    rw [List.map_cons, List.nodup_cons] at hnd
    rcases List.mem_cons.mp ht0 with rfl | hmem
    · rw [List.map_cons, if_pos hid, sumC_cons, sumC_cons,
        mapRow_eq_self fun t ht hteq => hnd.1 (by
          rw [hid]
          exact hteq ▸ List.mem_map_of_mem (fun t => t.id) ht)]
      ring
    · have hane : ¬ a.id = tid := fun hcontra => hnd.1 (by
        rw [hcontra, ← hid]
        exact List.mem_map_of_mem (fun t => t.id) hmem)
      rw [List.map_cons, if_neg hane, sumC_cons, sumC_cons, ih hnd.2 hmem]
      ring

lemma sumC_filterNe {l : List Transaccion} {tid : String} {t0 : Transaccion}
    (hnd : (l.map fun t => t.id).Nodup) (ht0 : t0 ∈ l) (hid : t0.id = tid)
    (cid : String) :
    sumC (l.filter fun x => decide (¬ x.id = tid)) cid
      = sumC l cid - contribTo cid t0 := by
  induction l with
  | nil => cases ht0
  | cons a l ih =>
    rw [List.map_cons, List.nodup_cons] at hnd
    rcases List.mem_cons.mp ht0 with rfl | hmem
    · rw [List.filter_cons_of_neg (by simp [hid]),
        filterNe_eq_self fun t ht hteq => hnd.1 (by
          rw [hid]
          exact hteq ▸ List.mem_map_of_mem (fun t => t.id) ht),
        sumC_cons]
      ring
    · have hane : ¬ a.id = tid := fun hcontra => hnd.1 (by
        rw [hcontra, ← hid]
        exact List.mem_map_of_mem (fun t => t.id) hmem)
      rw [List.filter_cons_of_pos (by simp [hane]), sumC_cons, sumC_cons,
        ih hnd.2 hmem]
      ring

/-! ### Properties of the `find?`-based lookups -/

lemma findCategoriaActiva_spec {s : State} {cid tenant : String} {c : Categoria}
    (h : findCategoriaActiva s cid tenant = some c) :
    c ∈ s.categorias ∧ c.id = cid ∧ c.cuentaMaestraId = tenant ∧ c.activa = true := by
  unfold findCategoriaActiva at h
  have hp := List.find?_some h
  simp only [decide_eq_true_eq] at hp
  exact ⟨List.mem_of_find?_eq_some h, hp.1, hp.2.1, hp.2.2⟩

lemma findCuentaActiva_spec {s : State} {cid tenant : String} {c : Cuenta}
    (h : findCuentaActiva s cid tenant = some c) :
    c ∈ s.cuentas ∧ c.id = cid ∧ c.cuentaMaestraId = tenant ∧ c.activa = true := by
  unfold findCuentaActiva at h
  have hp := List.find?_some h
  simp only [decide_eq_true_eq] at hp
  exact ⟨List.mem_of_find?_eq_some h, hp.1, hp.2.1, hp.2.2⟩

lemma findCuentaById_spec {l : List Cuenta} {cid : String} {c : Cuenta}
    (h : findCuentaById l cid = some c) : c ∈ l ∧ c.id = cid := by
  unfold findCuentaById at h
  have hp := List.find?_some h
  simp only [decide_eq_true_eq] at hp
  exact ⟨List.mem_of_find?_eq_some h, hp⟩

lemma findCuentaById_none {l : List Cuenta} {cid : String}
    (h : findCuentaById l cid = none) : ∀ c ∈ l, ¬ c.id = cid := by
  unfold findCuentaById at h
  intro c hc
  have := List.find?_eq_none.mp h c hc
  simpa using this

lemma findTransaccion_spec {s : State} {tid tenant : String} {t : Transaccion}
    (h : findTransaccion s tid tenant = some t) :
    t ∈ s.transacciones ∧ t.id = tid ∧ t.cuentaMaestraId = tenant := by
  unfold findTransaccion at h
  have hp := List.find?_some h
  simp only [decide_eq_true_eq] at hp
  exact ⟨List.mem_of_find?_eq_some h, hp.1, hp.2⟩

/-! ### `setSaldo` lemmas -/

lemma setSaldo_preserves_id (c : Cuenta) (cid : String) (v : ℚ) :
    (if c.id = cid then { c with saldo := v } else c).id = c.id := by
  split
  · rfl
  · rfl

lemma findCuentaById_setSaldo (l : List Cuenta) (a : String) (v : ℚ) (b : String) :
    findCuentaById (setSaldo l a v) b
      = (findCuentaById l b).map fun c =>
          if c.id = a then { c with saldo := v } else c := by
  unfold findCuentaById setSaldo
  rw [List.find?_map]
  have hfun : ((fun c : Cuenta => decide (c.id = b)) ∘ fun c : Cuenta =>
      if c.id = a then { c with saldo := v } else c)
      = fun c : Cuenta => decide (c.id = b) := by
    funext c
    simp only [Function.comp_apply]
    rw [setSaldo_preserves_id]
  rw [hfun]

lemma mem_setSaldo {l : List Cuenta} {cid : String} {v : ℚ} {c' : Cuenta}
    (h : c' ∈ setSaldo l cid v) :
    ∃ c ∈ l, c' = if c.id = cid then { c with saldo := v } else c := by
  rcases List.mem_map.mp h with ⟨c, hc, hce⟩
  exact ⟨c, hc, hce.symm⟩

/-! ### Field bookkeeping for row updates -/

lemma applyUpdate_tipo (r : UpdateTransaccionReq) (t : Transaccion) :
    (applyUpdate r t).tipo = r.tipo.getD t.tipo := rfl

lemma applyUpdate_monto (r : UpdateTransaccionReq) (t : Transaccion) :
    (applyUpdate r t).monto = r.monto.getD t.monto := rfl

lemma applyUpdate_cuentaId (r : UpdateTransaccionReq) (t : Transaccion) :
    (applyUpdate r t).cuentaId = t.cuentaId := rfl

lemma applyUpdate_id (r : UpdateTransaccionReq) (t : Transaccion) :
    (applyUpdate r t).id = t.id := rfl

lemma signedContribution_applyUpdate (r : UpdateTransaccionReq) (t : Transaccion) :
    signedContribution (applyUpdate r t)
      = signedOf (r.tipo.getD t.tipo) (r.monto.getD t.monto) := rfl

lemma revertOldState_transacciones (s : State) (t : Transaccion) :
    (revertOldState s t).transacciones = s.transacciones := by
  unfold revertOldState
  cases findCuentaById s.cuentas t.cuentaId
  · rfl
  · rfl

lemma revertOldState_categorias (s : State) (t : Transaccion) :
    (revertOldState s t).categorias = s.categorias := by
  unfold revertOldState
  cases findCuentaById s.cuentas t.cuentaId
  · rfl
  · rfl

lemma updateRow_cuentas (s : State) (tid : String) (r : UpdateTransaccionReq) :
    (updateRow s tid r).cuentas = s.cuentas := rfl

lemma updateRow_ids (s : State) (tid : String) (r : UpdateTransaccionReq) :
    ((updateRow s tid r).transacciones.map fun t => t.id)
      = s.transacciones.map fun t => t.id := by
  unfold updateRow
  induction s.transacciones with
  | nil => rfl
  | cons a l ih =>
    simp only [List.map_cons] at ih ⊢
    rw [ih]
    congr 1
    split
    · rfl
    · rfl

/-- Balance bookkeeping of the revert half of the PATCH/DELETE atomic unit:
after the revert, each stored balance equals the invariant value minus the
old transaction's contribution to that account. -/
lemma balanceInv_revertOldState {base : String → ℚ} {s : State}
    (t : Transaccion) (hinv : BalanceInv base s) :
    ∀ c' ∈ (revertOldState s t).cuentas,
      c'.saldo = base c'.id + sumC s.transacciones c'.id - contribTo c'.id t := by
  intro c' hc'
  unfold revertOldState at hc'
  cases hca : findCuentaById s.cuentas t.cuentaId with
  | none =>
    rw [hca] at hc'
    have hne : ¬ t.cuentaId = c'.id := fun h =>
      findCuentaById_none hca c' hc' h.symm
    rw [contribTo_eq_zero hne]
    have := hinv c' hc'
    simpa [sumContribs, sumC] using this
  | some cA =>
    rw [hca] at hc'
    rcases findCuentaById_spec hca with ⟨hcamem, hcaid⟩
    rcases mem_setSaldo hc' with ⟨c, hc, hce⟩
    by_cases hcid : c.id = t.cuentaId
    · rw [hce, if_pos hcid]
      have hsA : cA.saldo = base cA.id + sumContribs s cA.id := hinv cA hcamem
      rw [ite_revert_eq]
      simp only [hcid]
      rw [@contribTo_eq_signed t t.cuentaId rfl]
      have : base t.cuentaId + sumContribs s t.cuentaId
          = base cA.id + sumContribs s cA.id := by rw [hcaid]
      rw [show (signedOf t.tipo t.monto) = signedContribution t from rfl]
      rw [hsA, this.symm]
      rfl
    · rw [hce, if_neg hcid]
      have hne : ¬ t.cuentaId = c.id := fun h => hcid h.symm
      rw [contribTo_eq_zero hne]
      have := hinv c hc
      simpa [sumContribs, sumC] using this

/-! ### Preservation of the balance invariant by each ledger operation -/

/-- Inserting a row and applying its signed contribution to its account's
balance (the success path of `POST /transacciones`) preserves the
balance invariant. -/
lemma balanceInv_insertApply (base : String → ℚ) (s : State)
    (row : Transaccion) (cuenta : Cuenta) (hmem : cuenta ∈ s.cuentas)
    (hcid : cuenta.id = row.cuentaId) (hinv : BalanceInv base s) :
    BalanceInv base
      { s with
        transacciones := s.transacciones ++ [row]
        cuentas :=
          setSaldo s.cuentas row.cuentaId (cuenta.saldo + signedContribution row) } := by
  intro c' hc'
  have hc2 : c' ∈ setSaldo s.cuentas row.cuentaId
      (cuenta.saldo + signedContribution row) := hc'
  rcases mem_setSaldo hc2 with ⟨c, hcmem, hce⟩
  have hsum : ∀ cid, sumC (s.transacciones ++ [row]) cid
      = sumC s.transacciones cid + contribTo cid row := by
    intro cid
    rw [sumC_append, sumC_singleton]
  by_cases hcc : c.id = row.cuentaId
  · rw [if_pos hcc] at hce
    have hc'id : c'.id = row.cuentaId := by rw [hce, hcc]
    have hc'saldo : c'.saldo = cuenta.saldo + signedContribution row := by rw [hce]
    have hcu := hinv cuenta hmem
    have hcontrib : contribTo c'.id row = signedContribution row := by
      unfold contribTo
      rw [if_pos hc'id.symm]
    show c'.saldo = base c'.id + sumC (s.transacciones ++ [row]) c'.id
    rw [hsum, hcontrib, hc'saldo, hc'id, ← hcid]
    have : sumContribs s cuenta.id = sumC s.transacciones cuenta.id := rfl
    rw [this] at hcu
    linarith
  · rw [if_neg hcc] at hce
    have hc'c : c' = c := hce
    have hcontrib : contribTo c'.id row = 0 := by
      apply contribTo_eq_zero
      rw [hc'c]
      exact fun hh => hcc hh.symm
    show c'.saldo = base c'.id + sumC (s.transacciones ++ [row]) c'.id
    rw [hsum, hcontrib, hc'c]
    have := hinv c hcmem
    have hs : sumContribs s c.id = sumC s.transacciones c.id := rfl
    rw [hs] at this
    linarith


/-! ### Result characterization of `POST /transacciones` -/

lemma createTransaccion_schemaFail {s : State} {tenant usuarioId freshId : String}
    {r : CreateTransaccionReq} (h : ¬ createSchemaOk r = true) :
    createTransaccion s tenant usuarioId freshId r
      = (s, Resp.err Codigo.ERR_VALIDATION 400) := by
  unfold createTransaccion
  rw [if_pos h]

lemma createTransaccion_catNone {s : State} {tenant usuarioId freshId : String}
    {r : CreateTransaccionReq} (hschema : createSchemaOk r = true)
    (hcat : findCategoriaActiva s r.categoria_id tenant = none) :
    createTransaccion s tenant usuarioId freshId r
      = (s, Resp.err Codigo.ERR_NOT_FOUND 404) := by
  unfold createTransaccion
  rw [if_neg (not_not_intro hschema)]
  simp only [hcat]

lemma createTransaccion_tipoMismatch {s : State} {tenant usuarioId freshId : String}
    {r : CreateTransaccionReq} {categoria : Categoria}
    (hschema : createSchemaOk r = true)
    (hcat : findCategoriaActiva s r.categoria_id tenant = some categoria)
    (hne : ¬ categoria.tipo = r.tipo) :
    createTransaccion s tenant usuarioId freshId r
      = (s, Resp.err Codigo.ERR_VALIDATION 400) := by
  unfold createTransaccion
  rw [if_neg (not_not_intro hschema)]
  simp only [hcat]
  rw [if_pos hne]

lemma createTransaccion_cuentaNone {s : State} {tenant usuarioId freshId : String}
    {r : CreateTransaccionReq} {categoria : Categoria}
    (hschema : createSchemaOk r = true)
    (hcat : findCategoriaActiva s r.categoria_id tenant = some categoria)
    (htipo : categoria.tipo = r.tipo)
    (hcu : findCuentaActiva s r.cuenta_id tenant = none) :
    createTransaccion s tenant usuarioId freshId r
      = (s, Resp.err Codigo.ERR_NOT_FOUND 404) := by
  unfold createTransaccion
  rw [if_neg (not_not_intro hschema)]
  simp only [hcat]
  rw [if_neg (not_not_intro htipo)]
  simp only [hcu]

lemma createTransaccion_insufficient {s : State} {tenant usuarioId freshId : String}
    {r : CreateTransaccionReq} {categoria : Categoria} {cuenta : Cuenta}
    (hschema : createSchemaOk r = true)
    (hcat : findCategoriaActiva s r.categoria_id tenant = some categoria)
    (htipo : categoria.tipo = r.tipo)
    (hcu : findCuentaActiva s r.cuenta_id tenant = some cuenta)
    (hlow : r.tipo = Tipo.gasto ∧ cuenta.saldo < r.monto) :
    createTransaccion s tenant usuarioId freshId r
      = (s, Resp.err Codigo.ERR_VALIDATION 400) := by
  unfold createTransaccion
  rw [if_neg (not_not_intro hschema)]
  simp only [hcat]
  rw [if_neg (not_not_intro htipo)]
  simp only [hcu]
  rw [if_pos hlow]

lemma createTransaccion_success {s : State} {tenant usuarioId freshId : String}
    {r : CreateTransaccionReq} {categoria : Categoria} {cuenta : Cuenta}
    (hschema : createSchemaOk r = true)
    (hcat : findCategoriaActiva s r.categoria_id tenant = some categoria)
    (htipo : categoria.tipo = r.tipo)
    (hcu : findCuentaActiva s r.cuenta_id tenant = some cuenta)
    (hok : ¬ (r.tipo = Tipo.gasto ∧ cuenta.saldo < r.monto)) :
    createTransaccion s tenant usuarioId freshId r
      = ({ s with
            transacciones :=
              s.transacciones ++ [mkNewTransaccion tenant usuarioId freshId r]
            cuentas := setSaldo s.cuentas r.cuenta_id
              (if r.tipo = Tipo.ingreso then cuenta.saldo + r.monto
               else cuenta.saldo - r.monto) },
          Resp.ok) := by
  unfold createTransaccion
  rw [if_neg (not_not_intro hschema)]
  simp only [hcat]
  rw [if_neg (not_not_intro htipo)]
  simp only [hcu]
  rw [if_neg hok]

/-! ### Result characterization of `PATCH` and `DELETE /transacciones/:id` -/

lemma patchTransaccion_schemaFail {s : State} {tenant tid : String}
    {r : UpdateTransaccionReq} (h : ¬ updateSchemaOk r = true) :
    patchTransaccion s tenant tid r = (s, Resp.err Codigo.ERR_VALIDATION 400) := by
  unfold patchTransaccion
  rw [if_pos h]

lemma patchTransaccion_notFound {s : State} {tenant tid : String}
    {r : UpdateTransaccionReq} (hschema : updateSchemaOk r = true)
    (hft : findTransaccion s tid tenant = none) :
    patchTransaccion s tenant tid r = (s, Resp.err Codigo.ERR_NOT_FOUND 404) := by
  unfold patchTransaccion
  rw [if_neg (not_not_intro hschema)]
  simp only [hft]

lemma patchTransaccion_precheckErr {s : State} {tenant tid : String}
    {r : UpdateTransaccionReq} {oldT : Transaccion} {e : Codigo × Nat}
    (hschema : updateSchemaOk r = true)
    (hft : findTransaccion s tid tenant = some oldT)
    (hpc : patchPrechecks s tenant oldT r = some e) :
    patchTransaccion s tenant tid r = (s, Resp.err e.1 e.2) := by
  unfold patchTransaccion
  rw [if_neg (not_not_intro hschema)]
  simp only [hft, hpc]

lemma patchTransaccion_throw {s : State} {tenant tid : String}
    {r : UpdateTransaccionReq} {oldT : Transaccion}
    (hschema : updateSchemaOk r = true)
    (hft : findTransaccion s tid tenant = some oldT)
    (hpc : patchPrechecks s tenant oldT r = none)
    (hpa : patchAtomic s oldT tid r = none) :
    patchTransaccion s tenant tid r = (s, Resp.err Codigo.ERR_VALIDATION 400) := by
  unfold patchTransaccion
  rw [if_neg (not_not_intro hschema)]
  simp only [hft, hpc, hpa]

lemma patchTransaccion_commit {s : State} {tenant tid : String}
    {r : UpdateTransaccionReq} {oldT : Transaccion} {s1 : State}
    (hschema : updateSchemaOk r = true)
    (hft : findTransaccion s tid tenant = some oldT)
    (hpc : patchPrechecks s tenant oldT r = none)
    (hpa : patchAtomic s oldT tid r = some s1) :
    patchTransaccion s tenant tid r = (s1, Resp.ok) := by
  unfold patchTransaccion
  rw [if_neg (not_not_intro hschema)]
  simp only [hft, hpc, hpa]

lemma deleteTransaccion_notFound {s : State} {tenant tid : String}
    (hft : findTransaccion s tid tenant = none) :
    deleteTransaccion s tenant tid = (s, Resp.err Codigo.ERR_NOT_FOUND 404) := by
  unfold deleteTransaccion
  simp only [hft]

lemma deleteTransaccion_found {s : State} {tenant tid : String} {t : Transaccion}
    (hft : findTransaccion s tid tenant = some t) :
    deleteTransaccion s tenant tid
      = ({ revertOldState s t with
            transacciones := (revertOldState s t).transacciones.filter
              fun x => decide (¬ x.id = tid) },
          Resp.ok) := by
  unfold deleteTransaccion
  simp only [hft]

/-- `POST /transacciones` preserves the balance invariant. -/
lemma balanceInv_create (base : String → ℚ) (s : State)
    (tenant usuarioId freshId : String) (r : CreateTransaccionReq)
    (hinv : BalanceInv base s) :
    BalanceInv base (createTransaccion s tenant usuarioId freshId r).1 := by
  by_cases h0 : createSchemaOk r = true
  · cases hcat : findCategoriaActiva s r.categoria_id tenant with
    | none =>
      rw [createTransaccion_catNone h0 hcat]
      exact hinv
    | some categoria =>
      by_cases htipo : categoria.tipo = r.tipo
      · cases hcu : findCuentaActiva s r.cuenta_id tenant with
        | none =>
          rw [createTransaccion_cuentaNone h0 hcat htipo hcu]
          exact hinv
        | some cuenta =>
          by_cases hlow : r.tipo = Tipo.gasto ∧ cuenta.saldo < r.monto
          · rw [createTransaccion_insufficient h0 hcat htipo hcu hlow]
            exact hinv
          · rw [createTransaccion_success h0 hcat htipo hcu hlow]
            rcases findCuentaActiva_spec hcu with ⟨hmem, hcid, -, -⟩
            show BalanceInv base
              { s with
                transacciones :=
                  s.transacciones ++ [mkNewTransaccion tenant usuarioId freshId r]
                cuentas := setSaldo s.cuentas r.cuenta_id
                  (if r.tipo = Tipo.ingreso then cuenta.saldo + r.monto
                   else cuenta.saldo - r.monto) }
            rw [ite_apply_eq]
            exact balanceInv_insertApply base s
              (mkNewTransaccion tenant usuarioId freshId r) cuenta hmem hcid hinv
      · rw [createTransaccion_tipoMismatch h0 hcat htipo]
        exact hinv
  · rw [createTransaccion_schemaFail h0]
    exact hinv

/-- The row-update in a PATCH whose request supplies none of amount, kind,
account leaves every contribution (hence the invariant) unchanged. -/
lemma balanceInv_updateRow_noBalance (base : String → ℚ) {s : State}
    {tid : String} {oldT : Transaccion} (r : UpdateTransaccionReq)
    (hwf : WFids s) (hmem : oldT ∈ s.transacciones) (hid : oldT.id = tid)
    (hinv : BalanceInv base s)
    (hm : r.monto = none) (ht : r.tipo = none) (_hc : r.cuenta_id = none) :
    BalanceInv base (updateRow s tid r) := by
  intro c' hc'
  have hc2 : c' ∈ s.cuentas := hc'
  have hsum := sumC_mapRow hwf hmem hid (applyUpdate r) c'.id
  have hsame : contribTo c'.id (applyUpdate r oldT) = contribTo c'.id oldT := by
    unfold contribTo signedContribution
    rw [applyUpdate_cuentaId, applyUpdate_tipo, applyUpdate_monto, hm, ht]
    rfl
  have hold := hinv c' hc2
  have hs : sumContribs s c'.id = sumC s.transacciones c'.id := rfl
  rw [hs] at hold
  show c'.saldo = base c'.id
    + sumC (s.transacciones.map fun t => if t.id = tid then applyUpdate r t else t) c'.id
  rw [hsum, hsame]
  linarith

/-- The apply-new-delta half of the PATCH atomic unit restores the balance
invariant, starting from the reverted state, for updates that do not
supply `cuenta_id`.  (With `cuenta_id` supplied the code adjusts the target
account's balance but — `applyUpdate` being key-faithful — never moves the
row, so the invariant genuinely breaks; see the C1 counterexample.) -/
lemma balanceInv_patchApplyNew (base : String → ℚ) {s1 : State}
    {oldT : Transaccion} {tid : String} {r : UpdateTransaccionReq} {s' : State}
    (hwf1 : (s1.transacciones.map fun t => t.id).Nodup)
    (hmem : oldT ∈ s1.transacciones) (hid : oldT.id = tid)
    (hnc : r.cuenta_id = none)
    (hshift : ∀ c' ∈ s1.cuentas,
      c'.saldo = base c'.id + sumC s1.transacciones c'.id - contribTo c'.id oldT)
    (h : patchApplyNew s1 oldT tid r = some s') :
    BalanceInv base s' := by
  unfold patchApplyNew at h
  rw [hnc] at h
  simp only [Option.getD_none] at h
  cases hfN : findCuentaById s1.cuentas oldT.cuentaId with
  | none =>
    simp only [hfN] at h
    injection h with h'
    subst h'
    intro c' hc'
    have hc2 : c' ∈ s1.cuentas := hc'
    have hsum := sumC_mapRow hwf1 hmem hid (applyUpdate r) c'.id
    have hnew0 : contribTo c'.id (applyUpdate r oldT) = 0 := by
      apply contribTo_eq_zero
      rw [applyUpdate_cuentaId]
      exact fun hh => (findCuentaById_none hfN c' hc2) hh.symm
    have hold := hshift c' hc2
    show c'.saldo = base c'.id
      + sumC (s1.transacciones.map fun t => if t.id = tid then applyUpdate r t else t) c'.id
    rw [hsum, hnew0]
    linarith
  | some cN =>
    simp only [hfN] at h
    by_cases hthrow : (r.tipo.getD oldT.tipo) = Tipo.gasto ∧
        (if (r.tipo.getD oldT.tipo) = Tipo.ingreso then
          cN.saldo + r.monto.getD oldT.monto
         else cN.saldo - r.monto.getD oldT.monto) < 0
    · rw [if_pos hthrow] at h
      exact Option.noConfusion h
    · rw [if_neg hthrow] at h
      injection h with h'
      subst h'
      rcases findCuentaById_spec hfN with ⟨hcNmem, hcNid⟩
      intro c' hc'
      have hc2 : c' ∈ setSaldo s1.cuentas oldT.cuentaId
          (if (r.tipo.getD oldT.tipo) = Tipo.ingreso then
            cN.saldo + r.monto.getD oldT.monto
           else cN.saldo - r.monto.getD oldT.monto) := hc'
      rcases mem_setSaldo hc2 with ⟨c, hcmem, hce⟩
      have hsum := sumC_mapRow hwf1 hmem hid (applyUpdate r) c'.id
      show c'.saldo = base c'.id
        + sumC (s1.transacciones.map fun t => if t.id = tid then applyUpdate r t else t) c'.id
      rw [hsum]
      by_cases hcc : c.id = oldT.cuentaId
      · rw [if_pos hcc] at hce
        have hc'id : c'.id = oldT.cuentaId := by rw [hce, hcc]
        have hc'saldo : c'.saldo
            = cN.saldo + signedOf (r.tipo.getD oldT.tipo) (r.monto.getD oldT.monto) := by
          rw [hce]
          show (if (r.tipo.getD oldT.tipo) = Tipo.ingreso then
              cN.saldo + r.monto.getD oldT.monto
            else cN.saldo - r.monto.getD oldT.monto) = _
          rw [ite_apply_eq]
        have hnewc : contribTo c'.id (applyUpdate r oldT)
            = signedOf (r.tipo.getD oldT.tipo) (r.monto.getD oldT.monto) := by
          unfold contribTo
          rw [applyUpdate_cuentaId, if_pos hc'id.symm, signedContribution_applyUpdate]
        have hcNs := hshift cN hcNmem
        rw [hcNid] at hcNs
        rw [hnewc, hc'saldo, hc'id]
        linarith
      · rw [if_neg hcc] at hce
        have hc'c : c' = c := hce
        have hnew0 : contribTo c'.id (applyUpdate r oldT) = 0 := by
          apply contribTo_eq_zero
          rw [applyUpdate_cuentaId, hc'c]
          exact fun hh => hcc hh.symm
        have hold := hshift c hcmem
        rw [hnew0, hc'c]
        linarith

/-- The PATCH atomic unit, when it commits, preserves the balance invariant. -/
lemma balanceInv_patchAtomicSome (base : String → ℚ) {s : State}
    {oldT : Transaccion} {tid : String} {r : UpdateTransaccionReq} {s' : State}
    (hwf : WFids s) (hmem : oldT ∈ s.transacciones) (hid : oldT.id = tid)
    (hnc : r.cuenta_id = none)
    (hinv : BalanceInv base s) (h : patchAtomic s oldT tid r = some s') :
    BalanceInv base s' := by
  unfold patchAtomic at h
  split at h
  · refine balanceInv_patchApplyNew base ?_ ?_ hid hnc ?_ h
    · rw [revertOldState_transacciones]
      exact hwf
    · rw [revertOldState_transacciones]
      exact hmem
    · intro c' hc'
      rw [revertOldState_transacciones]
      exact balanceInv_revertOldState oldT hinv c' hc'
  · injection h with h'
    subst h'
    rename_i hpath
    simp only [Bool.or_eq_true, not_or] at hpath
    exact balanceInv_updateRow_noBalance base r hwf hmem hid hinv
      (Option.not_isSome_iff_eq_none.mp hpath.1.1)
      (Option.not_isSome_iff_eq_none.mp hpath.1.2)
      (Option.not_isSome_iff_eq_none.mp hpath.2)

/-- `PATCH /transacciones/:id` preserves the balance invariant when the
request does not supply `cuenta_id`. -/
lemma balanceInv_patch (base : String → ℚ) (s : State) (tenant tid : String)
    (r : UpdateTransaccionReq) (hnc : r.cuenta_id = none)
    (hwf : WFids s) (hinv : BalanceInv base s) :
    BalanceInv base (patchTransaccion s tenant tid r).1 := by
  by_cases h0 : updateSchemaOk r = true
  · cases hft : findTransaccion s tid tenant with
    | none =>
      rw [patchTransaccion_notFound h0 hft]
      exact hinv
    | some oldT =>
      cases hpc : patchPrechecks s tenant oldT r with
      | some e =>
        rw [patchTransaccion_precheckErr h0 hft hpc]
        exact hinv
      | none =>
        cases hpa : patchAtomic s oldT tid r with
        | none =>
          rw [patchTransaccion_throw h0 hft hpc hpa]
          exact hinv
        | some s1 =>
          rw [patchTransaccion_commit h0 hft hpc hpa]
          rcases findTransaccion_spec hft with ⟨hm, hi, -⟩
          exact balanceInv_patchAtomicSome base hwf hm hi hnc hinv hpa
  · rw [patchTransaccion_schemaFail h0]
    exact hinv

/-- `DELETE /transacciones/:id` preserves the balance invariant. -/
lemma balanceInv_delete (base : String → ℚ) (s : State) (tenant tid : String)
    (hwf : WFids s) (hinv : BalanceInv base s) :
    BalanceInv base (deleteTransaccion s tenant tid).1 := by
  cases hft : findTransaccion s tid tenant with
  | none =>
    rw [deleteTransaccion_notFound hft]
    exact hinv
  | some t =>
    rw [deleteTransaccion_found hft]
    rcases findTransaccion_spec hft with ⟨hm, hi, -⟩
    intro c' hc'
    have hc2 : c' ∈ (revertOldState s t).cuentas := hc'
    have hrev := balanceInv_revertOldState t hinv c' hc2
    have hsum : sumC ((revertOldState s t).transacciones.filter
        fun x => decide (¬ x.id = tid)) c'.id
        = sumC s.transacciones c'.id - contribTo c'.id t := by
      rw [revertOldState_transacciones]
      exact sumC_filterNe hwf hm hi c'.id
    show c'.saldo = base c'.id + sumC ((revertOldState s t).transacciones.filter
      fun x => decide (¬ x.id = tid)) c'.id
    rw [hsum]
    linarith

/-! ### Preservation of primary-key well-formedness -/

lemma wfIds_create (s : State) (tenant usuarioId freshId : String)
    (r : CreateTransaccionReq) (hwf : WFids s)
    (hfresh : ¬ freshId ∈ s.transacciones.map fun t => t.id) :
    WFids (createTransaccion s tenant usuarioId freshId r).1 := by
  by_cases h0 : createSchemaOk r = true
  · cases hcat : findCategoriaActiva s r.categoria_id tenant with
    | none =>
      rw [createTransaccion_catNone h0 hcat]
      exact hwf
    | some categoria =>
      by_cases htipo : categoria.tipo = r.tipo
      · cases hcu : findCuentaActiva s r.cuenta_id tenant with
        | none =>
          rw [createTransaccion_cuentaNone h0 hcat htipo hcu]
          exact hwf
        | some cuenta =>
          by_cases hlow : r.tipo = Tipo.gasto ∧ cuenta.saldo < r.monto
          · rw [createTransaccion_insufficient h0 hcat htipo hcu hlow]
            exact hwf
          · rw [createTransaccion_success h0 hcat htipo hcu hlow]
            show ((s.transacciones
              ++ [mkNewTransaccion tenant usuarioId freshId r]).map fun t => t.id).Nodup
            rw [List.map_append]
            refine List.nodup_append.mpr ⟨hwf, List.nodup_singleton _, ?_⟩
            intro a ha hb
            simp only [List.map_cons, List.map_nil, List.mem_singleton] at hb
            subst hb
            exact hfresh ha
      · rw [createTransaccion_tipoMismatch h0 hcat htipo]
        exact hwf
  · rw [createTransaccion_schemaFail h0]
    exact hwf

lemma patchApplyNew_ids {s1 : State} {oldT : Transaccion} {tid : String}
    {r : UpdateTransaccionReq} {s' : State}
    (h : patchApplyNew s1 oldT tid r = some s') :
    (s'.transacciones.map fun t => t.id) = s1.transacciones.map fun t => t.id := by
  unfold patchApplyNew at h
  cases hfN : findCuentaById s1.cuentas (r.cuenta_id.getD oldT.cuentaId) with
  | none =>
    simp only [hfN] at h
    injection h with h'
    subst h'
    exact updateRow_ids s1 tid r
  | some cN =>
    simp only [hfN] at h
    by_cases hthrow : (r.tipo.getD oldT.tipo) = Tipo.gasto ∧
        (if (r.tipo.getD oldT.tipo) = Tipo.ingreso then
          cN.saldo + r.monto.getD oldT.monto
         else cN.saldo - r.monto.getD oldT.monto) < 0
    · rw [if_pos hthrow] at h
      exact Option.noConfusion h
    · rw [if_neg hthrow] at h
      injection h with h'
      subst h'
      exact updateRow_ids _ tid r

lemma patchAtomic_ids {s : State} {oldT : Transaccion} {tid : String}
    {r : UpdateTransaccionReq} {s' : State}
    (h : patchAtomic s oldT tid r = some s') :
    (s'.transacciones.map fun t => t.id) = s.transacciones.map fun t => t.id := by
  unfold patchAtomic at h
  split at h
  · have hids := patchApplyNew_ids h
    rw [hids, revertOldState_transacciones]
  · injection h with h'
    subst h'
    exact updateRow_ids s tid r

lemma wfIds_patch (s : State) (tenant tid : String) (r : UpdateTransaccionReq)
    (hwf : WFids s) : WFids (patchTransaccion s tenant tid r).1 := by
  by_cases h0 : updateSchemaOk r = true
  · cases hft : findTransaccion s tid tenant with
    | none =>
      rw [patchTransaccion_notFound h0 hft]
      exact hwf
    | some oldT =>
      cases hpc : patchPrechecks s tenant oldT r with
      | some e =>
        rw [patchTransaccion_precheckErr h0 hft hpc]
        exact hwf
      | none =>
        cases hpa : patchAtomic s oldT tid r with
        | none =>
          rw [patchTransaccion_throw h0 hft hpc hpa]
          exact hwf
        | some s1 =>
          rw [patchTransaccion_commit h0 hft hpc hpa]
          show (s1.transacciones.map fun t => t.id).Nodup
          rw [patchAtomic_ids hpa]
          exact hwf
  · rw [patchTransaccion_schemaFail h0]
    exact hwf

lemma wfIds_delete (s : State) (tenant tid : String) (hwf : WFids s) :
    WFids (deleteTransaccion s tenant tid).1 := by
  cases hft : findTransaccion s tid tenant with
  | none =>
    rw [deleteTransaccion_notFound hft]
    exact hwf
  | some t =>
    rw [deleteTransaccion_found hft]
    show (((revertOldState s t).transacciones.filter
      fun x => decide (¬ x.id = tid)).map fun t => t.id).Nodup
    rw [revertOldState_transacciones]
    exact List.Nodup.sublist
      (List.Sublist.map _ (List.filter_sublist _)) hwf

/-- One ledger operation that cannot move a row between accounts preserves
both primary-key well-formedness and the balance invariant. -/
lemma applyOp_wf_inv (base : String → ℚ) (s : State) (op : LedgerOp)
    (hwf : WFids s) (hf : opFreshOk s op = true) (hmv : opNoMove op = true)
    (hinv : BalanceInv base s) :
    WFids (applyOp s op) ∧ BalanceInv base (applyOp s op) := by
  cases op with
  | create tenant usuarioId freshId r =>
    have hfresh : ¬ freshId ∈ s.transacciones.map fun t => t.id := by
      simpa [opFreshOk] using hf
    exact ⟨wfIds_create s tenant usuarioId freshId r hwf hfresh,
      balanceInv_create base s tenant usuarioId freshId r hinv⟩
  | update tenant tid r =>
    have hnc : r.cuenta_id = none := by
      have h2 : r.cuenta_id.isNone = true := hmv
      exact Option.isNone_iff_eq_none.mp h2
    exact ⟨wfIds_patch s tenant tid r hwf,
      balanceInv_patch base s tenant tid r hnc hwf hinv⟩
  | delete tenant tid =>
    exact ⟨wfIds_delete s tenant tid hwf,
      balanceInv_delete base s tenant tid hwf hinv⟩

/-- Any sequence of non-account-moving ledger operations preserves the
balance invariant. -/
lemma runOps_balanceInv (base : String → ℚ) (ops : List LedgerOp) (s : State)
    (hwf : WFids s) (hfresh : opsFresh s ops = true)
    (hmv : ops.all opNoMove = true) (hinv : BalanceInv base s) :
    BalanceInv base (runOps s ops) := by
  induction ops generalizing s with
  | nil => exact hinv
  | cons op rest ih =>
    have hfresh2 : (opFreshOk s op && opsFresh (applyOp s op) rest) = true := hfresh
    rw [Bool.and_eq_true] at hfresh2
    rcases hfresh2 with ⟨h1, h2⟩
    have hmv2 : (opNoMove op && rest.all opNoMove) = true := hmv
    rw [Bool.and_eq_true] at hmv2
    rcases applyOp_wf_inv base s op hwf h1 hmv2.1 hinv with ⟨hwf2, hinv2⟩
    exact ih (applyOp s op) hwf2 h2 hmv2.2 hinv2

/-! ### Auxiliary lemmas for round-trip and account-move reasoning -/

lemma find?_append_of_none {α : Type} (p : α → Bool) (l₁ l₂ : List α)
    (h : l₁.find? p = none) : (l₁ ++ l₂).find? p = l₂.find? p := by
  induction l₁ with
  | nil => rfl
  | cons a l ih =>
    rw [List.find?_cons] at h
    rcases hpa : p a with _ | _
    · rw [List.cons_append, List.find?_cons, hpa]
      apply ih
      rw [hpa] at h
      exact h
    · rw [hpa] at h
      exact Option.noConfusion h

lemma findCuentaById_of_mem {l : List Cuenta} {cid : String} {c : Cuenta}
    (hnd : (l.map fun x => x.id).Nodup) (hc : c ∈ l) (hcid : c.id = cid) :
    findCuentaById l cid = some c := by
  induction l with
  | nil => cases hc
  | cons a l ih =>
    rw [List.map_cons, List.nodup_cons] at hnd
    rcases List.mem_cons.mp hc with rfl | hmem
    · unfold findCuentaById
      rw [List.find?_cons, decide_eq_true hcid]
    · have hane : ¬ a.id = cid := fun hcontra => hnd.1 (by
        rw [hcontra, ← hcid]
        exact List.mem_map_of_mem (fun x => x.id) hmem)
      unfold findCuentaById at ih ⊢
      rw [List.find?_cons, decide_eq_false hane]
      exact ih hnd.2 hmem

lemma setSaldo_setSaldo (l : List Cuenta) (cid : String) (v w : ℚ) :
    setSaldo (setSaldo l cid v) cid w = setSaldo l cid w := by
  unfold setSaldo
  rw [List.map_map]
  apply List.map_congr_left
  intro a _
  simp only [Function.comp_apply]
  by_cases h : a.id = cid
  · rw [if_pos h, if_pos h, if_pos h]
  · rw [if_neg h, if_neg h]

lemma setSaldo_map_noop {l : List Cuenta} {cid : String} {v : ℚ}
    (h : ∀ c ∈ l, ¬ c.id = cid) :
    (l.map fun c => if c.id = cid then { c with saldo := v } else c) = l := by
  induction l with
  | nil => rfl
  | cons a l ih =>
    rw [List.map_cons, if_neg (h a (List.mem_cons_self a l)),
      ih fun c hc => h c (List.mem_cons_of_mem a hc)]

lemma setSaldo_eq_self {l : List Cuenta} {cid : String} {c : Cuenta}
    (hnd : (l.map fun x => x.id).Nodup) (hc : c ∈ l) (hcid : c.id = cid) :
    setSaldo l cid c.saldo = l := by
  induction l with
  | nil => rfl
  | cons a l ih =>
    rw [List.map_cons, List.nodup_cons] at hnd
    unfold setSaldo
    rw [List.map_cons]
    rcases List.mem_cons.mp hc with rfl | hmem
    · have htl : ∀ b ∈ l, ¬ b.id = cid := by
        intro b hb hbc
        exact hnd.1 (by
          rw [hcid, ← hbc]
          exact List.mem_map_of_mem (fun x => x.id) hb)
      rw [if_pos hcid, setSaldo_map_noop htl]
    · have hane : ¬ a.id = cid := fun hcontra => hnd.1 (by
        rw [hcontra, ← hcid]
        exact List.mem_map_of_mem (fun x => x.id) hmem)
      rw [if_neg hane]
      have := ih hnd.2 hmem
      unfold setSaldo at this
      rw [this]

/-! ### Decidability of the invariants (for concrete evaluation) -/

instance decBalanceLiteralInv (s : State) : Decidable (BalanceLiteralInv s) :=
  inferInstanceAs (Decidable (∀ c ∈ s.cuentas, c.saldo = sumContribs s c.id))

instance decBalanceInv (base : String → ℚ) (s : State) :
    Decidable (BalanceInv base s) :=
  inferInstanceAs
    (Decidable (∀ c ∈ s.cuentas, c.saldo = base c.id + sumContribs s c.id))

instance decWFids (s : State) : Decidable (WFids s) :=
  inferInstanceAs
    (Decidable ((s.transacciones.map fun t : Transaccion => t.id).Nodup))

instance decKindMatchInv (s : State) : Decidable (KindMatchInv s) :=
  inferInstanceAs (Decidable (∀ t ∈ s.transacciones, ∀ cat ∈ s.categorias,
    cat.id = t.categoriaId → cat.tipo = t.tipo))

/-! ### Claim theorems -/

/-- Claim C2: when an update's new kind is expense and applying the new
signed delta to the (possibly different) target account would make that
account's balance negative, the whole update — including the
already-performed reversal on the old account — aborts with
`ERR_VALIDATION` (400), and the state (both balances and the transaction
row) is exactly the pre-attempt state. -/
theorem c2_update_insufficient_aborts (s : State) (tenant tid : String)
    (r : UpdateTransaccionReq) (oldT : Transaccion) (cN : Cuenta)
    (hschema : updateSchemaOk r = true)
    (hft : findTransaccion s tid tenant = some oldT)
    (hpc : patchPrechecks s tenant oldT r = none)
    (hpath : (r.monto.isSome || r.tipo.isSome || r.cuenta_id.isSome) = true)
    (hfN : findCuentaById (revertOldState s oldT).cuentas
      (r.cuenta_id.getD oldT.cuentaId) = some cN)
    (hgasto : r.tipo.getD oldT.tipo = Tipo.gasto)
    (hneg : cN.saldo < r.monto.getD oldT.monto) :
    patchTransaccion s tenant tid r = (s, Resp.err Codigo.ERR_VALIDATION 400) := by
  have hcond : (r.tipo.getD oldT.tipo) = Tipo.gasto ∧
      (if (r.tipo.getD oldT.tipo) = Tipo.ingreso then
        cN.saldo + r.monto.getD oldT.monto
       else cN.saldo - r.monto.getD oldT.monto) < 0 := by
    refine ⟨hgasto, ?_⟩
    rw [hgasto]
    have h2 : cN.saldo - r.monto.getD oldT.monto < 0 := sub_neg.mpr hneg
    simpa using h2
  have hpa : patchAtomic s oldT tid r = none := by
    unfold patchAtomic
    rw [if_pos hpath]
    unfold patchApplyNew
    simp only [hfN]
    rw [if_pos hcond]
  exact patchTransaccion_throw hschema hft hpc hpa

/-- Claim C3: creating an expense transaction whose amount strictly exceeds
the referenced account's current balance is rejected with `ERR_VALIDATION`
(400) and leaves the state unchanged; with the other preconditions met, an
expense create succeeds exactly when current balance ≥ amount. -/
theorem c3_create_expense_floor (s : State) (tenant usuarioId freshId : String)
    (r : CreateTransaccionReq) (categoria : Categoria) (cuenta : Cuenta)
    (hschema : createSchemaOk r = true)
    (hcat : findCategoriaActiva s r.categoria_id tenant = some categoria)
    (htipo : categoria.tipo = r.tipo)
    (hcu : findCuentaActiva s r.cuenta_id tenant = some cuenta)
    (hgasto : r.tipo = Tipo.gasto) :
    (cuenta.saldo < r.monto →
      createTransaccion s tenant usuarioId freshId r
        = (s, Resp.err Codigo.ERR_VALIDATION 400)) ∧
    (r.monto ≤ cuenta.saldo →
      (createTransaccion s tenant usuarioId freshId r).2 = Resp.ok) := by
  constructor
  · intro hlt
    exact createTransaccion_insufficient hschema hcat htipo hcu ⟨hgasto, hlt⟩
  · intro hle
    rw [createTransaccion_success hschema hcat htipo hcu
      fun hcon => absurd hcon.2 (not_lt.mpr hle)]

/-- Claim C4: a successful create changes the referenced account's balance
by exactly the signed delta (+amount for income, −amount for expense) and
inserts the new transaction row in the same atomic unit. -/
theorem c4_create_applies_signed_delta (s : State)
    (tenant usuarioId freshId : String) (r : CreateTransaccionReq)
    (categoria : Categoria) (cuenta : Cuenta)
    (hschema : createSchemaOk r = true)
    (hcat : findCategoriaActiva s r.categoria_id tenant = some categoria)
    (htipo : categoria.tipo = r.tipo)
    (hcu : findCuentaActiva s r.cuenta_id tenant = some cuenta)
    (hok : ¬ (r.tipo = Tipo.gasto ∧ cuenta.saldo < r.monto)) :
    createTransaccion s tenant usuarioId freshId r
      = ({ s with
            transacciones :=
              s.transacciones ++ [mkNewTransaccion tenant usuarioId freshId r]
            cuentas := setSaldo s.cuentas r.cuenta_id
              (if r.tipo = Tipo.ingreso then cuenta.saldo + r.monto
               else cuenta.saldo - r.monto) },
          Resp.ok)
    ∧ ∀ c' ∈ (createTransaccion s tenant usuarioId freshId r).1.cuentas,
        c'.id = r.cuenta_id → c'.saldo = cuenta.saldo + signedOf r.tipo r.monto := by
  have hres := @createTransaccion_success s tenant usuarioId freshId r
    categoria cuenta hschema hcat htipo hcu hok
  refine ⟨hres, ?_⟩
  intro c' hc' hcid'
  rw [hres] at hc'
  have hc2 : c' ∈ setSaldo s.cuentas r.cuenta_id
      (if r.tipo = Tipo.ingreso then cuenta.saldo + r.monto
       else cuenta.saldo - r.monto) := hc'
  rcases mem_setSaldo hc2 with ⟨c, hcmem, hce⟩
  by_cases hcc : c.id = r.cuenta_id
  · rw [if_pos hcc] at hce
    rw [hce]
    show (if r.tipo = Tipo.ingreso then cuenta.saldo + r.monto
      else cuenta.saldo - r.monto) = _
    rw [ite_apply_eq]
  · rw [if_neg hcc] at hce
    rw [hce] at hcid'
    exact absurd hcid' hcc

/-- Claim C6: every create precondition failure aborts before any write:
missing/inactive category or account give `ERR_NOT_FOUND` (404), kind
mismatch and insufficient balance give `ERR_VALIDATION` (400), and the
store is unchanged in each case. -/
theorem c6_create_precondition_failures (s : State)
    (tenant usuarioId freshId : String) (r : CreateTransaccionReq)
    (hschema : createSchemaOk r = true) :
    (findCategoriaActiva s r.categoria_id tenant = none →
      createTransaccion s tenant usuarioId freshId r
        = (s, Resp.err Codigo.ERR_NOT_FOUND 404)) ∧
    (∀ categoria, findCategoriaActiva s r.categoria_id tenant = some categoria →
      ¬ categoria.tipo = r.tipo →
      createTransaccion s tenant usuarioId freshId r
        = (s, Resp.err Codigo.ERR_VALIDATION 400)) ∧
    (∀ categoria, findCategoriaActiva s r.categoria_id tenant = some categoria →
      categoria.tipo = r.tipo →
      findCuentaActiva s r.cuenta_id tenant = none →
      createTransaccion s tenant usuarioId freshId r
        = (s, Resp.err Codigo.ERR_NOT_FOUND 404)) ∧
    (∀ categoria cuenta,
      findCategoriaActiva s r.categoria_id tenant = some categoria →
      categoria.tipo = r.tipo →
      findCuentaActiva s r.cuenta_id tenant = some cuenta →
      r.tipo = Tipo.gasto → cuenta.saldo < r.monto →
      createTransaccion s tenant usuarioId freshId r
        = (s, Resp.err Codigo.ERR_VALIDATION 400)) := by
  refine ⟨?_, ?_, ?_, ?_⟩
  · intro hcat
    exact createTransaccion_catNone hschema hcat
  · intro categoria hcat hne
    exact createTransaccion_tipoMismatch hschema hcat hne
  · intro categoria hcat htipo hcu
    exact createTransaccion_cuentaNone hschema hcat htipo hcu
  · intro categoria cuenta hcat htipo hcu hgasto hlt
    exact createTransaccion_insufficient hschema hcat htipo hcu ⟨hgasto, hlt⟩

/-- Claim C8: an update that supplies none of amount, kind or account
skips the balance-adjustment path entirely:
the handler commits, every account balance is unchanged, and the row update
can only touch category, date, notes and receipt reference — kind, amount
and account of the row are preserved. -/
theorem c8_no_balance_fields_skips_ledger (s : State) (tenant tid : String)
    (r : UpdateTransaccionReq) (oldT : Transaccion)
    (hschema : updateSchemaOk r = true)
    (hft : findTransaccion s tid tenant = some oldT)
    (hpc : patchPrechecks s tenant oldT r = none)
    (hm : r.monto = none) (ht : r.tipo = none) (hc : r.cuenta_id = none) :
    patchTransaccion s tenant tid r = (updateRow s tid r, Resp.ok)
    ∧ (updateRow s tid r).cuentas = s.cuentas
    ∧ (updateRow s tid r).transacciones
        = s.transacciones.map (fun t => if t.id = tid then applyUpdate r t else t)
    ∧ ∀ t : Transaccion, (applyUpdate r t).tipo = t.tipo
        ∧ (applyUpdate r t).monto = t.monto
        ∧ (applyUpdate r t).cuentaId = t.cuentaId := by
  have hpa : patchAtomic s oldT tid r = some (updateRow s tid r) := by
    unfold patchAtomic
    rw [if_neg]
    simp [hm, ht, hc]
  refine ⟨patchTransaccion_commit hschema hft hpc hpa, rfl, rfl, ?_⟩
  intro t
  refine ⟨?_, ?_, ?_⟩
  · rw [applyUpdate_tipo, ht]
    rfl
  · rw [applyUpdate_monto, hm]
    rfl
  · exact applyUpdate_cuentaId r t

/-- Claim C10: deleting an existing transaction whose account row no longer
exists still succeeds: the row is removed, no account balance is touched,
and the success envelope is returned. -/
theorem c10_delete_missing_account (s : State) (tenant tid : String)
    (t : Transaccion)
    (hft : findTransaccion s tid tenant = some t)
    (hfc : findCuentaById s.cuentas t.cuentaId = none) :
    deleteTransaccion s tenant tid
      = ({ s with
            transacciones := s.transacciones.filter fun x => decide (¬ x.id = tid) },
          Resp.ok) := by
  rw [deleteTransaccion_found hft]
  have hrev : revertOldState s t = s := by
    unfold revertOldState
    simp only [hfc]
  rw [hrev]

/-- Claim C7 (amended): create always rejects a kind/category mismatch with
`ERR_VALIDATION` (400); update revalidates the kind-match — against the
effective new kind — only when `categoria_id` is supplied, rejecting
mismatches then.  (An update that changes the kind without supplying
`categoria_id` is not checked, see the counterexample.) -/
theorem c7_kind_match_enforcement :
    (∀ (s : State) (tenant usuarioId freshId : String) (r : CreateTransaccionReq)
        (categoria : Categoria),
      createSchemaOk r = true →
      findCategoriaActiva s r.categoria_id tenant = some categoria →
      ¬ categoria.tipo = r.tipo →
      createTransaccion s tenant usuarioId freshId r
        = (s, Resp.err Codigo.ERR_VALIDATION 400)) ∧
    (∀ (s : State) (tenant tid : String) (r : UpdateTransaccionReq)
        (oldT : Transaccion) (cid : String) (categoria : Categoria),
      updateSchemaOk r = true →
      findTransaccion s tid tenant = some oldT →
      r.categoria_id = some cid →
      findCategoriaActiva s cid tenant = some categoria →
      ¬ categoria.tipo = r.tipo.getD oldT.tipo →
      patchTransaccion s tenant tid r
        = (s, Resp.err Codigo.ERR_VALIDATION 400)) := by
  constructor
  · intro s tenant usuarioId freshId r categoria hschema hcat hne
    exact createTransaccion_tipoMismatch hschema hcat hne
  · intro s tenant tid r oldT cid categoria hschema hft hcid hcat hne
    have h1 : patchPrecheckCategoria s tenant oldT r
        = some (Codigo.ERR_VALIDATION, 400) := by
      unfold patchPrecheckCategoria
      simp only [hcid, hcat]
      rw [if_pos hne]
    have hpc : patchPrechecks s tenant oldT r
        = some (Codigo.ERR_VALIDATION, 400) := by
      unfold patchPrechecks
      simp only [h1]
    exact patchTransaccion_precheckErr hschema hft hpc

/-- Claim C5: deleting a persisted transaction reverts its signed
contribution on its account and removes the row atomically, with no
balance-floor check (the first conjunct has no hypothesis on the account's
balance); consequently, creating a transaction and then deleting it
restores the store — account balance included — to the pre-creation state
(second conjunct). -/
theorem c5_delete_reverts_and_roundtrip :
    (∀ (s : State) (tenant tid : String) (t : Transaccion) (cu : Cuenta),
      findTransaccion s tid tenant = some t →
      findCuentaById s.cuentas t.cuentaId = some cu →
      deleteTransaccion s tenant tid
        = ({ s with
              cuentas := setSaldo s.cuentas t.cuentaId
                (cu.saldo - signedContribution t)
              transacciones :=
                s.transacciones.filter fun x => decide (¬ x.id = tid) },
            Resp.ok)) ∧
    (∀ (s : State) (tenant usuarioId freshId : String) (r : CreateTransaccionReq)
        (categoria : Categoria) (cuenta : Cuenta),
      (s.cuentas.map fun c => c.id).Nodup →
      ¬ freshId ∈ (s.transacciones.map fun t => t.id) →
      createSchemaOk r = true →
      findCategoriaActiva s r.categoria_id tenant = some categoria →
      categoria.tipo = r.tipo →
      findCuentaActiva s r.cuenta_id tenant = some cuenta →
      ¬ (r.tipo = Tipo.gasto ∧ cuenta.saldo < r.monto) →
      createTransaccion s tenant usuarioId freshId r
        = ({ s with
              transacciones :=
                s.transacciones ++ [mkNewTransaccion tenant usuarioId freshId r]
              cuentas := setSaldo s.cuentas r.cuenta_id
                (if r.tipo = Tipo.ingreso then cuenta.saldo + r.monto
                 else cuenta.saldo - r.monto) },
            Resp.ok) ∧
      deleteTransaccion
        { s with
          transacciones :=
            s.transacciones ++ [mkNewTransaccion tenant usuarioId freshId r]
          cuentas := setSaldo s.cuentas r.cuenta_id
            (if r.tipo = Tipo.ingreso then cuenta.saldo + r.monto
             else cuenta.saldo - r.monto) }
        tenant freshId
        = (s, Resp.ok)) := by
  constructor
  · intro s tenant tid t cu hft hfc
    rw [deleteTransaccion_found hft]
    have hrev : revertOldState s t
        = { s with
            cuentas := setSaldo s.cuentas t.cuentaId
              (cu.saldo - signedContribution t) } := by
      unfold revertOldState
      simp only [hfc]
      rw [ite_revert_eq]
      rfl
    rw [hrev]
  · intro s tenant usuarioId freshId r categoria cuenta hndC hfresh hschema hcat
      htipo hcu hok
    rcases findCuentaActiva_spec hcu with ⟨hcmem, hcid, -, -⟩
    refine ⟨@createTransaccion_success s tenant usuarioId freshId r
      categoria cuenta hschema hcat htipo hcu hok, ?_⟩
    have hrowfind : findTransaccion
        { s with
          transacciones :=
            s.transacciones ++ [mkNewTransaccion tenant usuarioId freshId r]
          cuentas := setSaldo s.cuentas r.cuenta_id
            (if r.tipo = Tipo.ingreso then cuenta.saldo + r.monto
             else cuenta.saldo - r.monto) }
        freshId tenant = some (mkNewTransaccion tenant usuarioId freshId r) := by
      unfold findTransaccion
      show ((s.transacciones ++ [mkNewTransaccion tenant usuarioId freshId r]).find?
        fun t => decide (t.id = freshId ∧ t.cuentaMaestraId = tenant)) = _
      rw [find?_append_of_none]
      · rw [List.find?_cons, decide_eq_true ⟨rfl, rfl⟩]
      · apply List.find?_eq_none.mpr
        intro t ht hpt
        have hp := of_decide_eq_true hpt
        exact hfresh (hp.1 ▸ List.mem_map_of_mem (fun t => t.id) ht)
    rw [deleteTransaccion_found hrowfind]
    have hfindcu : findCuentaById
        (setSaldo s.cuentas r.cuenta_id
          (if r.tipo = Tipo.ingreso then cuenta.saldo + r.monto
           else cuenta.saldo - r.monto))
        (mkNewTransaccion tenant usuarioId freshId r).cuentaId
        = some { cuenta with
            saldo := (if r.tipo = Tipo.ingreso then cuenta.saldo + r.monto
              else cuenta.saldo - r.monto) } := by
      show findCuentaById
        (setSaldo s.cuentas r.cuenta_id
          (if r.tipo = Tipo.ingreso then cuenta.saldo + r.monto
           else cuenta.saldo - r.monto)) r.cuenta_id = _
      rw [findCuentaById_setSaldo, findCuentaById_of_mem hndC hcmem hcid,
        Option.map_some', if_pos hcid]
    have hrev : revertOldState
        { s with
          transacciones :=
            s.transacciones ++ [mkNewTransaccion tenant usuarioId freshId r]
          cuentas := setSaldo s.cuentas r.cuenta_id
            (if r.tipo = Tipo.ingreso then cuenta.saldo + r.monto
             else cuenta.saldo - r.monto) }
        (mkNewTransaccion tenant usuarioId freshId r)
        = { categorias := s.categorias
            cuentas := s.cuentas
            transacciones :=
              s.transacciones ++ [mkNewTransaccion tenant usuarioId freshId r] } := by
      unfold revertOldState
      simp only [hfindcu]
      rw [ite_revert_eq]
      have hv : ({ cuenta with
          saldo := (if r.tipo = Tipo.ingreso then cuenta.saldo + r.monto
            else cuenta.saldo - r.monto) } : Cuenta).saldo
          - signedOf (mkNewTransaccion tenant usuarioId freshId r).tipo
              (mkNewTransaccion tenant usuarioId freshId r).monto
          = cuenta.saldo := by
        show (if r.tipo = Tipo.ingreso then cuenta.saldo + r.monto
          else cuenta.saldo - r.monto) - signedOf r.tipo r.monto = cuenta.saldo
        rw [ite_apply_eq]
        exact add_sub_cancel_right cuenta.saldo (signedOf r.tipo r.monto)
      rw [hv]
      show ({ categorias := s.categorias
              cuentas := setSaldo
                (setSaldo s.cuentas r.cuenta_id
                  (if r.tipo = Tipo.ingreso then cuenta.saldo + r.monto
                   else cuenta.saldo - r.monto)) r.cuenta_id cuenta.saldo
              transacciones :=
                s.transacciones ++ [mkNewTransaccion tenant usuarioId freshId r] }
            : State) = _
      rw [setSaldo_setSaldo, setSaldo_eq_self hndC hcmem hcid]
    rw [hrev]
    have htrans : ((s.transacciones
        ++ [mkNewTransaccion tenant usuarioId freshId r]).filter
        fun x => decide (¬ x.id = freshId)) = s.transacciones := by
      rw [List.filter_append]
      have h1 : (s.transacciones.filter fun x => decide (¬ x.id = freshId))
          = s.transacciones :=
        filterNe_eq_self fun t ht hteq =>
          hfresh (hteq ▸ List.mem_map_of_mem (fun t => t.id) ht)
      have h2 : (([mkNewTransaccion tenant usuarioId freshId r]).filter
          fun x => decide (¬ x.id = freshId)) = [] := by
        rw [List.filter_cons_of_neg]
        · rfl
        · simp [mkNewTransaccion]
      rw [h1, h2, List.append_nil]
    show (({ categorias := s.categorias
             cuentas := s.cuentas
             transacciones := (s.transacciones
               ++ [mkNewTransaccion tenant usuarioId freshId r]).filter
               fun x => decide (¬ x.id = freshId) } : State), Resp.ok)
        = (s, Resp.ok)
    rw [htrans]

/-- Claim C9: updating an expense transaction by only moving it to a
different account B reverts the old delta on the origin account (balance
increases by the amount) and applies it to B (balance decreases by the
amount), committing with the success envelope. -/
theorem c9_move_expense_between_accounts (s : State) (tenant tid bId : String)
    (r : UpdateTransaccionReq) (oldT : Transaccion) (cA cB : Cuenta)
    (hschema : updateSchemaOk r = true)
    (hft : findTransaccion s tid tenant = some oldT)
    (hgasto : oldT.tipo = Tipo.gasto)
    (hpc : patchPrechecks s tenant oldT r = none)
    (hmo : r.monto = none) (hti : r.tipo = none) (hcid : r.cuenta_id = some bId)
    (hA : findCuentaById s.cuentas oldT.cuentaId = some cA)
    (hB : findCuentaById s.cuentas bId = some cB)
    (hAB : ¬ oldT.cuentaId = bId)
    (hnoneg : oldT.monto ≤ cB.saldo) :
    (patchTransaccion s tenant tid r).2 = Resp.ok ∧
    findCuentaById (patchTransaccion s tenant tid r).1.cuentas oldT.cuentaId
      = some { cA with saldo := cA.saldo + oldT.monto } ∧
    findCuentaById (patchTransaccion s tenant tid r).1.cuentas bId
      = some { cB with saldo := cB.saldo - oldT.monto } := by
  have hcAid : cA.id = oldT.cuentaId := (findCuentaById_spec hA).2
  have hcBid : cB.id = bId := (findCuentaById_spec hB).2
  have hrev : revertOldState s oldT
      = { s with
          cuentas := setSaldo s.cuentas oldT.cuentaId (cA.saldo + oldT.monto) } := by
    unfold revertOldState
    simp only [hA]
    rw [if_neg fun h => Tipo.noConfusion (hgasto.symm.trans h)]
  have hfN : findCuentaById (revertOldState s oldT).cuentas
      (r.cuenta_id.getD oldT.cuentaId) = some cB := by
    rw [hrev, hcid]
    show findCuentaById
      (setSaldo s.cuentas oldT.cuentaId (cA.saldo + oldT.monto)) bId = some cB
    rw [findCuentaById_setSaldo, hB, Option.map_some',
      if_neg fun h => hAB (hcBid.symm.trans h).symm]
  have hpath : (r.monto.isSome || r.tipo.isSome || r.cuenta_id.isSome) = true := by
    simp [hcid]
  have hthrowF : ¬ ((r.tipo.getD oldT.tipo) = Tipo.gasto ∧
      (if (r.tipo.getD oldT.tipo) = Tipo.ingreso then
        cB.saldo + r.monto.getD oldT.monto
       else cB.saldo - r.monto.getD oldT.monto) < 0) := by
    intro hcon
    have hlt := hcon.2
    rw [hti, hmo] at hlt
    simp only [Option.getD_none] at hlt
    rw [if_neg fun h => Tipo.noConfusion (hgasto.symm.trans h)] at hlt
    linarith
  have hpa : patchAtomic s oldT tid r
      = some (updateRow
          { categorias := s.categorias
            cuentas := setSaldo
              (setSaldo s.cuentas oldT.cuentaId (cA.saldo + oldT.monto))
              bId (cB.saldo - oldT.monto)
            transacciones := s.transacciones }
          tid r) := by
    unfold patchAtomic
    rw [if_pos hpath]
    unfold patchApplyNew
    simp only [hfN]
    rw [if_neg hthrowF, hrev, hcid, hti, hmo, hgasto]
    rfl
  have hres := patchTransaccion_commit hschema hft hpc hpa
  rw [hres]
  refine ⟨rfl, ?_, ?_⟩
  · show findCuentaById
      (setSaldo (setSaldo s.cuentas oldT.cuentaId (cA.saldo + oldT.monto))
        bId (cB.saldo - oldT.monto)) oldT.cuentaId = _
    rw [findCuentaById_setSaldo, findCuentaById_setSaldo, hA, Option.map_some',
      if_pos hcAid, Option.map_some', if_neg fun h => hAB (hcAid.symm.trans h)]
  · show findCuentaById
      (setSaldo (setSaldo s.cuentas oldT.cuentaId (cA.saldo + oldT.monto))
        bId (cB.saldo - oldT.monto)) bId = _
    rw [findCuentaById_setSaldo, findCuentaById_setSaldo, hB, Option.map_some',
      if_neg fun h => hAB (hcBid.symm.trans h).symm, Option.map_some',
      if_pos hcBid]

/-- Claim C1 (amended): along any sequence of transaction creates, updates
and deletes in which no update supplies `cuenta_id` (with fresh `nanoid`
row ids and unique row ids, as the PK guarantees), every account's stored
balance keeps tracking the sum of the signed contributions of its persisted
transactions, offset by the fixed per-account base balance (its
creation-time initial balance): the invariant `saldo = base + Σ
contributions` is preserved.  Both restrictions are forced by the
counterexample: accounts are created with an arbitrary non-negative initial
balance, and an update that supplies `cuenta_id` moves both balances but —
drizzle dropping the snake_case key — not the row. -/
theorem c1_balance_tracks_contributions (base : String → ℚ) (s : State)
    (ops : List LedgerOp) (hwf : WFids s) (hfresh : opsFresh s ops = true)
    (hmv : ops.all opNoMove = true) (hinv : BalanceInv base s) :
    BalanceInv base (runOps s ops) :=
  runOps_balanceInv base ops s hwf hfresh hmv hinv

/-! ### Concrete fixtures for the witnesses -/

def catGasto : Categoria :=
  { id := "catG", cuentaMaestraId := "m1", nombre := "Comida"
    tipo := Tipo.gasto, activa := true }

def catIngreso : Categoria :=
  { id := "catI", cuentaMaestraId := "m1", nombre := "Sueldo"
    tipo := Tipo.ingreso, activa := true }

def cuentaA (v : ℚ) : Cuenta :=
  { id := "ctaA", cuentaMaestraId := "m1", nombre := "Efectivo"
    saldo := v, activa := true }

def cuentaB (v : ℚ) : Cuenta :=
  { id := "ctaB", cuentaMaestraId := "m1", nombre := "Banco"
    saldo := v, activa := true }

def transGasto30 : Transaccion :=
  { id := "t1", cuentaMaestraId := "m1", usuarioId := "u1", tipo := Tipo.gasto
    monto := 30, categoriaId := "catG", cuentaId := "ctaA"
    fecha := "2026-01-02", notas := none, fotoComprobanteUrl := none }

def baseC1 : String → ℚ := fun cid => if cid = "ctaA" then 100 else 0

def stateC1 : State :=
  { categorias := [catGasto, catIngreso], cuentas := [cuentaA 100]
    transacciones := [] }

def opsC1 : List LedgerOp :=
  [ LedgerOp.create "m1" "u1" "t1"
      { tipo := Tipo.gasto, monto := 30, categoria_id := "catG"
        cuenta_id := "ctaA", fecha := "2026-01-02", notas := none
        foto_comprobante_url := none },
    LedgerOp.update "m1" "t1"
      { tipo := none, monto := some 10, categoria_id := none, cuenta_id := none
        fecha := none, notas := none, foto_comprobante_url := none },
    LedgerOp.delete "m1" "t1" ]

def stateC2 : State :=
  { categorias := [catGasto], cuentas := [cuentaA 70]
    transacciones := [transGasto30] }

def reqC2 : UpdateTransaccionReq :=
  { tipo := none, monto := some 200, categoria_id := none, cuenta_id := none
    fecha := none, notas := none, foto_comprobante_url := none }

def stateC3 : State :=
  { categorias := [catGasto], cuentas := [cuentaA 70], transacciones := [] }

def reqC3 : CreateTransaccionReq :=
  { tipo := Tipo.gasto, monto := 80, categoria_id := "catG", cuenta_id := "ctaA"
    fecha := "2026-01-03", notas := none, foto_comprobante_url := none }

def stateC4 : State :=
  { categorias := [catIngreso], cuentas := [cuentaA 70], transacciones := [] }

def reqC4 : CreateTransaccionReq :=
  { tipo := Tipo.ingreso, monto := 50, categoria_id := "catI", cuenta_id := "ctaA"
    fecha := "2026-01-04", notas := none, foto_comprobante_url := none }

def stateC4post : State :=
  { stateC4 with
    transacciones := stateC4.transacciones ++ [mkNewTransaccion "m1" "u1" "t2" reqC4]
    cuentas := setSaldo stateC4.cuentas reqC4.cuenta_id
      (if reqC4.tipo = Tipo.ingreso then (cuentaA 70).saldo + reqC4.monto
       else (cuentaA 70).saldo - reqC4.monto) }

def stateC6 : State :=
  { categorias := [], cuentas := [cuentaA 70], transacciones := [] }

def stateC7 : State :=
  { categorias := [catGasto], cuentas := [cuentaA 100]
    transacciones := [transGasto30] }

def reqC7 : UpdateTransaccionReq :=
  { tipo := some Tipo.ingreso, monto := none, categoria_id := none
    cuenta_id := none, fecha := none, notas := none
    foto_comprobante_url := none }

def stateC7b : State :=
  { categorias := [catIngreso], cuentas := [cuentaA 70], transacciones := [] }

def reqC7b : CreateTransaccionReq :=
  { tipo := Tipo.gasto, monto := 10, categoria_id := "catI", cuenta_id := "ctaA"
    fecha := "2026-01-05", notas := none, foto_comprobante_url := none }

def reqC7c : UpdateTransaccionReq :=
  { tipo := some Tipo.ingreso, monto := none, categoria_id := some "catG"
    cuenta_id := none, fecha := none, notas := none
    foto_comprobante_url := none }

def reqC8 : UpdateTransaccionReq :=
  { tipo := none, monto := none, categoria_id := none, cuenta_id := none
    fecha := none, notas := some "pago supermercado"
    foto_comprobante_url := none }

def stateC9 : State :=
  { categorias := [catGasto], cuentas := [cuentaA 70, cuentaB 200]
    transacciones := [transGasto30] }

def reqC9 : UpdateTransaccionReq :=
  { tipo := none, monto := none, categoria_id := none, cuenta_id := some "ctaB"
    fecha := none, notas := none, foto_comprobante_url := none }

def transHuerfana : Transaccion :=
  { id := "t8", cuentaMaestraId := "m1", usuarioId := "u1", tipo := Tipo.ingreso
    monto := 5, categoriaId := "catG", cuentaId := "ctaX"
    fecha := "2026-01-06", notas := none, fotoComprobanteUrl := none }

def stateC10 : State :=
  { categorias := [catGasto], cuentas := [cuentaA 70]
    transacciones := [transHuerfana] }

def transIngresoA : Transaccion :=
  { id := "tA", cuentaMaestraId := "m1", usuarioId := "u1", tipo := Tipo.ingreso
    monto := 100, categoriaId := "catI", cuentaId := "ctaA"
    fecha := "2026-01-01", notas := none, fotoComprobanteUrl := none }

def transIngresoB : Transaccion :=
  { id := "tB", cuentaMaestraId := "m1", usuarioId := "u1", tipo := Tipo.ingreso
    monto := 50, categoriaId := "catI", cuentaId := "ctaB"
    fecha := "2026-01-01", notas := none, fotoComprobanteUrl := none }

/-- Store in which every balance equals its sum of contributions:
A = 100 − 30 = 70, B = 50. -/
def stateMove : State :=
  { categorias := [catGasto, catIngreso], cuentas := [cuentaA 70, cuentaB 50]
    transacciones := [transIngresoA, transGasto30, transIngresoB] }

/-- The store the account-moving PATCH commits: both balances adjusted for
the move, the row untouched. -/
def stateMovePost : State :=
  updateRow
    { categorias := stateMove.categorias
      cuentas := setSaldo
        (setSaldo stateMove.cuentas "ctaA"
          ((cuentaA 70).saldo + transGasto30.monto))
        "ctaB" ((cuentaB 50).saldo - transGasto30.monto)
      transacciones := stateMove.transacciones }
    "t1" reqC9

/-- Claim C1 counterexample, in two halves.  First: `POST /cuentas` creates
an account with an arbitrary non-negative initial balance, so right after a
successful account creation with balance 100 (an empty, hence trivially
complete, sequence of transaction operations) the stored balance differs
from the sum of signed contributions — the literal claimed equality fails.
Second: starting from a store where every balance equals its contribution
sum, a successful PATCH that supplies `cuenta_id` adjusts both accounts'
balances for the move but leaves the row on the old account (drizzle
ignores the snake_case key), so the equality fails afterwards — the
balance/contribution correspondence is not maintained across
account-moving updates. -/
theorem c1_counterexample :
    ((createCuenta { categorias := [], cuentas := [], transacciones := [] }
        "m1" "ctaA" { nombre := "Principal", saldo := 100 }).2 = Resp.ok ∧
      ¬ BalanceLiteralInv
        (createCuenta { categorias := [], cuentas := [], transacciones := [] }
          "m1" "ctaA" { nombre := "Principal", saldo := 100 }).1) ∧
    (BalanceLiteralInv stateMove ∧
      (patchTransaccion stateMove "m1" "t1" reqC9).2 = Resp.ok ∧
      ¬ BalanceLiteralInv (patchTransaccion stateMove "m1" "t1" reqC9).1) := by
  have hsAB : ¬ ("ctaB" = "ctaA") := by decide
  have hsBA : ¬ ("ctaA" = "ctaB") := by decide
  have ht1A : ¬ ("tA" = "t1") := by decide
  have ht1B : ¬ ("tB" = "t1") := by decide
  have hthrowM : ¬ ((reqC9.tipo.getD transGasto30.tipo) = Tipo.gasto ∧
      (if (reqC9.tipo.getD transGasto30.tipo) = Tipo.ingreso then
        (cuentaB 50).saldo + reqC9.monto.getD transGasto30.monto
       else (cuentaB 50).saldo - reqC9.monto.getD transGasto30.monto) < 0) := by
    intro hcon
    have hlt := hcon.2
    rw [if_neg (by decide : ¬ (reqC9.tipo.getD transGasto30.tipo) = Tipo.ingreso)]
      at hlt
    norm_num [reqC9, transGasto30, cuentaB] at hlt
  have hfN : findCuentaById (revertOldState stateMove transGasto30).cuentas
      (reqC9.cuenta_id.getD transGasto30.cuentaId) = some (cuentaB 50) := rfl
  have hpa : patchAtomic stateMove transGasto30 "t1" reqC9
      = some stateMovePost := by
    unfold patchAtomic
    rw [if_pos (by decide)]
    unfold patchApplyNew
    simp only [hfN]
    rw [if_neg hthrowM]
    rfl
  have hres : patchTransaccion stateMove "m1" "t1" reqC9
      = (stateMovePost, Resp.ok) :=
    patchTransaccion_commit (by decide) (by decide) (by decide) hpa
  refine ⟨by decide, ?_, ?_, ?_⟩
  · intro c hc
    have hc2 : c ∈ [cuentaA 70, cuentaB 50] := hc
    rcases List.mem_cons.mp hc2 with h1 | h2
    · rw [h1]
      norm_num [cuentaA, sumContribs, sumC, stateMove, contribTo,
        signedContribution, signedOf, transIngresoA, transGasto30, transIngresoB,
        hsAB, hsBA]
    · rw [List.mem_singleton.mp h2]
      norm_num [cuentaB, sumContribs, sumC, stateMove, contribTo,
        signedContribution, signedOf, transIngresoA, transGasto30, transIngresoB,
        hsAB, hsBA]
  · rw [hres]
  · intro hbal
    rw [hres] at hbal
    have hbal2 : BalanceLiteralInv stateMovePost := hbal
    have hmemA : cuentaA ((cuentaA 70).saldo + transGasto30.monto)
        ∈ stateMovePost.cuentas := List.Mem.head _
    have h2 := hbal2 _ hmemA
    norm_num [cuentaA, cuentaB, stateMovePost, stateMove, updateRow, setSaldo,
      applyUpdate, reqC9, sumContribs, sumC, contribTo, signedContribution,
      signedOf, transIngresoA, transGasto30, transIngresoB,
      hsAB, hsBA, ht1A, ht1B] at h2

/-- Claim C7 counterexample: on a consistent state, a PATCH that supplies
only `tipo` (no `categoria_id`) commits successfully and leaves a persisted
transaction whose kind (income) no longer matches its category's kind
(expense): the invariant is not maintained by update. -/
theorem c7_counterexample :
    KindMatchInv stateC7 ∧
    (patchTransaccion stateC7 "m1" "t1" reqC7).2 = Resp.ok ∧
    ¬ KindMatchInv (patchTransaccion stateC7 "m1" "t1" reqC7).1 := by
  decide

/-! ### Witnesses -/

/-- Witness for C1 at a concrete store and operation sequence. -/
theorem c1_witness :
    WFids stateC1 ∧ opsFresh stateC1 opsC1 = true ∧
    opsC1.all opNoMove = true ∧ BalanceInv baseC1 stateC1 ∧
    BalanceInv baseC1 (runOps stateC1 opsC1) := by
  have hinv : BalanceInv baseC1 stateC1 := by
    intro c hc
    have hc2 : c ∈ [cuentaA 100] := hc
    rw [List.mem_singleton.mp hc2]
    show (cuentaA 100).saldo
      = baseC1 (cuentaA 100).id + sumContribs stateC1 (cuentaA 100).id
    norm_num [cuentaA, baseC1, sumContribs, sumC, stateC1]
  exact ⟨by decide, by decide, by decide, hinv,
    c1_balance_tracks_contributions baseC1 stateC1 opsC1
      (by decide) (by decide) (by decide) hinv⟩

/-- Witness for C2: raising a 30.00 expense to 200.00 on an account left
with balance 70.00 aborts with `ERR_VALIDATION` and leaves the state
untouched. -/
theorem c2_witness :
    patchTransaccion stateC2 "m1" "t1" reqC2
      = (stateC2, Resp.err Codigo.ERR_VALIDATION 400) :=
  c2_update_insufficient_aborts stateC2 "m1" "t1" reqC2 transGasto30
    (cuentaA (70 + 30))
    (by decide) (by decide) (by decide) (by decide) (by rfl) (by decide)
    (by norm_num [cuentaA, reqC2, transGasto30])

/-- Witness for C3: creating an 80.00 expense on balance 70.00 is rejected. -/
theorem c3_witness :
    createTransaccion stateC3 "m1" "u1" "t9" reqC3
      = (stateC3, Resp.err Codigo.ERR_VALIDATION 400) :=
  (c3_create_expense_floor stateC3 "m1" "u1" "t9" reqC3 catGasto (cuentaA 70)
    (by decide) (by decide) (by decide) (by decide) (by decide)).1 (by decide)

/-- Witness for C4: a 50.00 income on balance 70.00 inserts the row and
sets the balance by the signed delta. -/
theorem c4_witness :
    createTransaccion stateC4 "m1" "u1" "t2" reqC4 = (stateC4post, Resp.ok) :=
  (c4_create_applies_signed_delta stateC4 "m1" "u1" "t2" reqC4 catIngreso
    (cuentaA 70) (by decide) (by decide) (by decide) (by decide) (by decide)).1

/-- Witness for C5: deleting the 30.00 expense reverts the balance, and a
create-then-delete round trip restores the original store exactly. -/
theorem c5_witness :
    deleteTransaccion stateC2 "m1" "t1"
      = ({ stateC2 with
            cuentas := setSaldo stateC2.cuentas transGasto30.cuentaId
              ((cuentaA 70).saldo - signedContribution transGasto30)
            transacciones :=
              stateC2.transacciones.filter fun x => decide (¬ x.id = "t1") },
          Resp.ok) ∧
    (createTransaccion stateC4 "m1" "u1" "t2" reqC4 = (stateC4post, Resp.ok) ∧
      deleteTransaccion stateC4post "m1" "t2" = (stateC4, Resp.ok)) :=
  ⟨c5_delete_reverts_and_roundtrip.1 stateC2 "m1" "t1" transGasto30 (cuentaA 70)
      (by decide) (by decide),
    c5_delete_reverts_and_roundtrip.2 stateC4 "m1" "u1" "t2" reqC4 catIngreso
      (cuentaA 70) (by decide) (by decide) (by decide) (by decide) (by decide)
      (by decide) (by decide)⟩

/-- Witness for C6: creating against a missing category signals
`ERR_NOT_FOUND` and leaves the store unchanged. -/
theorem c6_witness :
    createTransaccion stateC6 "m1" "u1" "t1" reqC3
      = (stateC6, Resp.err Codigo.ERR_NOT_FOUND 404) :=
  (c6_create_precondition_failures stateC6 "m1" "u1" "t1" reqC3 (by decide)).1
    (by decide)

/-- Witness for C7 (amended): create rejects an expense under an income
category, and an update that supplies a category revalidates the
kind-match against the effective new kind. -/
theorem c7_witness :
    createTransaccion stateC7b "m1" "u1" "t3" reqC7b
      = (stateC7b, Resp.err Codigo.ERR_VALIDATION 400) ∧
    patchTransaccion stateC7 "m1" "t1" reqC7c
      = (stateC7, Resp.err Codigo.ERR_VALIDATION 400) :=
  ⟨c7_kind_match_enforcement.1 stateC7b "m1" "u1" "t3" reqC7b catIngreso
      (by decide) (by decide) (by decide),
    c7_kind_match_enforcement.2 stateC7 "m1" "t1" reqC7c transGasto30 "catG"
      catGasto (by decide) (by decide) (by decide) (by decide) (by decide)⟩

/-- Witness for C8: a notes-only update commits and touches no balance. -/
theorem c8_witness :
    patchTransaccion stateC2 "m1" "t1" reqC8
      = (updateRow stateC2 "t1" reqC8, Resp.ok) ∧
    (updateRow stateC2 "t1" reqC8).cuentas = stateC2.cuentas :=
  ⟨(c8_no_balance_fields_skips_ledger stateC2 "m1" "t1" reqC8 transGasto30
      (by decide) (by decide) (by decide) (by decide) (by decide) (by decide)).1,
    (c8_no_balance_fields_skips_ledger stateC2 "m1" "t1" reqC8 transGasto30
      (by decide) (by decide) (by decide) (by decide) (by decide) (by decide)).2.1⟩

/-- Witness for C9 at the spec's numbers: moving the 30.00 expense from the
origin account (balance 70.00) to account B (balance 200.00) restores the
origin to 100.00 and drops B to 170.00. -/
theorem c9_witness :
    (patchTransaccion stateC9 "m1" "t1" reqC9).2 = Resp.ok ∧
    findCuentaById (patchTransaccion stateC9 "m1" "t1" reqC9).1.cuentas
        transGasto30.cuentaId
      = some { cuentaA 70 with saldo := (cuentaA 70).saldo + transGasto30.monto } ∧
    findCuentaById (patchTransaccion stateC9 "m1" "t1" reqC9).1.cuentas "ctaB"
      = some { cuentaB 200 with saldo := (cuentaB 200).saldo - transGasto30.monto } :=
  c9_move_expense_between_accounts stateC9 "m1" "t1" "ctaB" reqC9 transGasto30
    (cuentaA 70) (cuentaB 200) (by decide) (by decide) (by decide) (by decide)
    (by decide) (by decide) (by decide) (by decide) (by decide) (by decide)
    (by decide)

/-- Witness for C10: deleting a transaction whose account row is gone still
succeeds and only removes the row. -/
theorem c10_witness :
    deleteTransaccion stateC10 "m1" "t8"
      = ({ stateC10 with
            transacciones :=
              stateC10.transacciones.filter fun x => decide (¬ x.id = "t8") },
          Resp.ok) :=
  c10_delete_missing_account stateC10 "m1" "t8" transHuerfana
    (by decide) (by decide)

end Finanzas
